import Mathlib

/-!
Shallow embedding of `src/cocos/rendering/custom/builtin-forward-pipeline.ts`
(cocos-engine builtin forward render-graph planner) and proofs about it.

JavaScript numbers are modelled as exact rationals; no claim in scope hinges
on floating-point rounding.  Geometric culling primitives (sphere-frustum and
AABB-frustum intersection) and the editor framework are external to the
source file and are modelled as black boxes, as documented at each such
definition.  Pass emission is modelled as an explicit trace: every call to
`ppl.addRenderPass` appends one `Pass` record, in program order, and the
builder-object mutations of the TypeScript code become functional updates of
the corresponding record.
-/

set_option maxHeartbeats 1000000

/-- JS `Math.floor` on rationals. -/
def jsFloor (q : ℚ) : ℤ := ⌊q⌋

/-- JS `Math.trunc` on rationals (rounds toward zero). -/
def jsTrunc (q : ℚ) : ℤ := if 0 ≤ q then ⌊q⌋ else ⌈q⌉

/-- 2d vector of JS numbers (e.g. `shadows.size`). -/
structure Vec2Q where
  x : ℚ
  y : ℚ
deriving DecidableEq, Repr

/-- 3d vector of JS numbers (`Vec3`). -/
structure Vec3Q where
  x : ℚ
  y : ℚ
  z : ℚ
deriving DecidableEq, Repr

/-- 4d vector of JS numbers (`Vec4`). -/
structure Vec4Q where
  x : ℚ
  y : ℚ
  z : ℚ
  w : ℚ
deriving DecidableEq, Repr

/-- `Vec3.squaredDistance` from the engine core math library. -/
def Vec3Q.squaredDistance (a b : Vec3Q) : ℚ :=
  (b.x - a.x) ^ 2 + (b.y - a.y) ^ 2 + (b.z - a.z) ^ 2

/-- gfx `Color` (r, g, b, a as JS numbers). -/
structure ColorQ where
  x : ℚ
  y : ℚ
  z : ℚ
  w : ℚ
deriving DecidableEq, Repr

/-- gfx `Viewport` (left, top, width, height as JS numbers). -/
structure ViewportQ where
  left : ℚ
  top : ℚ
  width : ℚ
  height : ℚ
deriving DecidableEq, Repr

/-- gfx `ClearFlagBit.COLOR`. -/
def clearFlagColor : Nat := 1
/-- gfx `ClearFlagBit.DEPTH`. -/
def clearFlagDepth : Nat := 2
/-- gfx `ClearFlagBit.STENCIL`. -/
def clearFlagStencil : Nat := 4
/-- gfx `ClearFlagBit.DEPTH_STENCIL = DEPTH | STENCIL`. -/
def clearFlagDepthStencil : Nat := 6

/-- Modelled from the spec: the `SceneFlags` bit values live in
`rendering/custom/types.ts`, which is not under `src/`; the spec treats them
as opaque draw-queue tags, so distinct bits are assigned here. -/
def sceneFlagOpaque : Nat := 1
/-- Modelled from the spec: `SceneFlags.MASK` bit (see `sceneFlagOpaque`). -/
def sceneFlagMask : Nat := 2
/-- Modelled from the spec: `SceneFlags.BLEND` bit (see `sceneFlagOpaque`). -/
def sceneFlagBlend : Nat := 4
/-- Modelled from the spec: `SceneFlags.SHADOW_CASTER` bit (see `sceneFlagOpaque`). -/
def sceneFlagShadowCaster : Nat := 8
/-- Modelled from the spec: `SceneFlags.UI` bit (see `sceneFlagOpaque`). -/
def sceneFlagUI : Nat := 16
/-- Modelled from the spec: `SceneFlags.PROFILER` bit (see `sceneFlagOpaque`). -/
def sceneFlagProfiler : Nat := 32

/-- gfx `LoadOp`. -/
inductive LoadOp
  | CLEAR
  | LOAD
  | DISCARD
deriving DecidableEq, Repr

/-- gfx `StoreOp`. -/
inductive StoreOp
  | STORE
  | DISCARD
deriving DecidableEq, Repr

/-- `QueueHint` from `rendering/custom/types.ts`. -/
inductive QueueHint
  | NONE
  | OPAQUE
  | BLEND
deriving DecidableEq, Repr

/-- Spot light: only the attributes read by the planner are modelled
(`baked`, `shadowEnabled`, `position`, `range`). -/
structure SpotLight where
  baked : Bool
  shadowEnabled : Bool
  position : Vec3Q
  range : ℚ
deriving DecidableEq, Repr

/-- Sphere light: attributes read by the planner. -/
structure SphereLight where
  baked : Bool
  position : Vec3Q
  range : ℚ
deriving DecidableEq, Repr

/-- Point light: attributes read by the planner. -/
structure PointLight where
  baked : Bool
  position : Vec3Q
  range : ℚ
deriving DecidableEq, Repr

/-- Ranged directional light: the planner reads its world matrix (through
`light.node.getWorldMatrix()`) and, on the base `Light` class, the `baked`
flag.  The matrix is opaque data here (only handed to the black-box culling
primitive). -/
structure RangedDirLight where
  baked : Bool
  worldMatrix : List ℚ
deriving DecidableEq, Repr

/-- Directional (main) light: attributes read by the planner. -/
structure DirectionalLight where
  shadowEnabled : Bool
  shadowFixedArea : Bool
  csmLevel : Nat
deriving DecidableEq, Repr

/-- The closed sum of additive light variants (`Light` with `light.type`
dispatch in the source). -/
inductive Light
  | spot : SpotLight → Light
  | sphere : SphereLight → Light
  | point : PointLight → Light
  | rangedDir : RangedDirLight → Light
deriving DecidableEq, Repr

/-- A sphere built by `Sphere.set` from a light position and range. -/
structure SphereQ where
  x : ℚ
  y : ℚ
  z : ℚ
  r : ℚ
deriving DecidableEq, Repr

/-- Modelled from the spec: the geometric culling primitives
(`intersect.sphereFrustum`, `intersect.aabbFrustum` together with
`AABB.transform` of the fixed half-extent ranged-directional bounding box)
live in `core/geometry`, which is not under `src/`; the spec consumes them
as black-box predicates, so a frustum is represented by the two predicates
the planner applies to it. -/
structure Frustum where
  sphereFrustum : SphereQ → Bool
  rangedDirAabbFrustum : List ℚ → Bool

/-- `RenderScene`: the per-variant light lists iterated by `cullLights`. -/
structure RenderScene where
  mainLight : Option DirectionalLight
  spotLights : List SpotLight
  sphereLights : List SphereLight
  pointLights : List PointLight
  rangedDirLights : List RangedDirLight

/-- The two ordered sequences owned by `ForwardLighting`.  The cached
geometry scratch objects (`_sphere`, `_boundingBox`) are overwritten before
every read and carry no state, so they are not part of the record. -/
structure ForwardLighting where
  lights : List Light
  shadowEnabledSpotLights : List SpotLight
deriving DecidableEq, Repr

/-- Comparator used to sort `shadowEnabledSpotLights`:
ascending squared distance to the camera position.  JS `Array.prototype.sort`
with a consistent numeric comparator produces a stable sorted permutation
(ES2019), modelled by `List.mergeSort` under the induced total preorder. -/
def spotDistLE (cameraPos : Vec3Q) (lhs rhs : SpotLight) : Bool :=
  decide (Vec3Q.squaredDistance cameraPos lhs.position
    ≤ Vec3Q.squaredDistance cameraPos rhs.position)

/-- Loop body of the spot-light loop of `cullLights`. -/
def cullSpotStep (frustum : Frustum) (s : ForwardLighting) (light : SpotLight) :
    ForwardLighting :=
  if light.baked then s
  else if frustum.sphereFrustum
      { x := light.position.x, y := light.position.y, z := light.position.z,
        r := light.range } then
    if light.shadowEnabled then
      { s with shadowEnabledSpotLights := s.shadowEnabledSpotLights ++ [light] }
    else
      { s with lights := s.lights ++ [Light.spot light] }
  else s

/-- Loop body of the sphere-light loop of `cullLights`. -/
def cullSphereStep (frustum : Frustum) (s : ForwardLighting) (light : SphereLight) :
    ForwardLighting :=
  if light.baked then s
  else if frustum.sphereFrustum
      { x := light.position.x, y := light.position.y, z := light.position.z,
        r := light.range } then
    { s with lights := s.lights ++ [Light.sphere light] }
  else s

/-- Loop body of the point-light loop of `cullLights`. -/
def cullPointStep (frustum : Frustum) (s : ForwardLighting) (light : PointLight) :
    ForwardLighting :=
  if light.baked then s
  else if frustum.sphereFrustum
      { x := light.position.x, y := light.position.y, z := light.position.z,
        r := light.range } then
    { s with lights := s.lights ++ [Light.point light] }
  else s

/-- Loop body of the ranged-directional-light loop of `cullLights`.  Note:
the source performs no `baked` check in this loop (unlike the other three). -/
def cullRangedDirStep (frustum : Frustum) (s : ForwardLighting) (light : RangedDirLight) :
    ForwardLighting :=
  if frustum.rangedDirAabbFrustum light.worldMatrix then
    { s with lights := s.lights ++ [Light.rangedDir light] }
  else s

/-- `ForwardLighting.cullLights(scene, frustum, cameraPos?)`: clears both
sequences, classifies the scene lights, and, when a camera position is
supplied, sorts the shadow-casting spot lights by ascending squared distance
to it. -/
def ForwardLighting.cullLights (self : ForwardLighting) (scene : RenderScene)
    (frustum : Frustum) (cameraPos : Option Vec3Q) : ForwardLighting :=
  let self := { self with lights := [], shadowEnabledSpotLights := [] }
  let self := scene.spotLights.foldl (cullSpotStep frustum) self
  let self := scene.sphereLights.foldl (cullSphereStep frustum) self
  let self := scene.pointLights.foldl (cullPointStep frustum) self
  let self := scene.rangedDirLights.foldl (cullRangedDirStep frustum) self
  match cameraPos with
  | some pos =>
      { self with shadowEnabledSpotLights :=
          self.shadowEnabledSpotLights.mergeSort (spotDistLE pos) }
  | none => self

/-- Predicate: a spot light survives culling and casts shadows. -/
def spotShadowKeep (frustum : Frustum) (l : SpotLight) : Bool :=
  !l.baked && frustum.sphereFrustum
    { x := l.position.x, y := l.position.y, z := l.position.z, r := l.range }
    && l.shadowEnabled

/-- Predicate: a spot light survives culling and joins the additive list. -/
def spotActiveKeep (frustum : Frustum) (l : SpotLight) : Bool :=
  !l.baked && frustum.sphereFrustum
    { x := l.position.x, y := l.position.y, z := l.position.z, r := l.range }
    && !l.shadowEnabled

/-- Predicate: a sphere light survives culling. -/
def sphereKeep (frustum : Frustum) (l : SphereLight) : Bool :=
  !l.baked && frustum.sphereFrustum
    { x := l.position.x, y := l.position.y, z := l.position.z, r := l.range }

/-- Predicate: a point light survives culling. -/
def pointKeep (frustum : Frustum) (l : PointLight) : Bool :=
  !l.baked && frustum.sphereFrustum
    { x := l.position.x, y := l.position.y, z := l.position.z, r := l.range }

/-- Predicate: a ranged directional light survives culling (no baked check
in the source). -/
def rangedDirKeep (frustum : Frustum) (l : RangedDirLight) : Bool :=
  frustum.rangedDirAabbFrustum l.worldMatrix

theorem cullSpotStep_foldl (frustum : Frustum) (xs : List SpotLight)
    (s : ForwardLighting) :
    (xs.foldl (cullSpotStep frustum) s).lights
        = s.lights ++ (xs.filter (spotActiveKeep frustum)).map Light.spot
      ∧ (xs.foldl (cullSpotStep frustum) s).shadowEnabledSpotLights
        = s.shadowEnabledSpotLights ++ xs.filter (spotShadowKeep frustum) := by
  induction xs generalizing s with
  | nil => simp
  | cons x xs ih =>
      rcases ih (cullSpotStep frustum s x) with ⟨ih1, ih2⟩
      constructor
      · rw [List.foldl_cons, ih1]
        by_cases hb : x.baked <;>
          by_cases hf : frustum.sphereFrustum
            { x := x.position.x, y := x.position.y, z := x.position.z, r := x.range } <;>
          by_cases hs : x.shadowEnabled <;>
          simp [cullSpotStep, spotActiveKeep, hb, hf, hs]
      · rw [List.foldl_cons, ih2]
        by_cases hb : x.baked <;>
          by_cases hf : frustum.sphereFrustum
            { x := x.position.x, y := x.position.y, z := x.position.z, r := x.range } <;>
          by_cases hs : x.shadowEnabled <;>
          simp [cullSpotStep, spotShadowKeep, hb, hf, hs]

theorem cullSphereStep_foldl (frustum : Frustum) (xs : List SphereLight)
    (s : ForwardLighting) :
    (xs.foldl (cullSphereStep frustum) s).lights
        = s.lights ++ (xs.filter (sphereKeep frustum)).map Light.sphere
      ∧ (xs.foldl (cullSphereStep frustum) s).shadowEnabledSpotLights
        = s.shadowEnabledSpotLights := by
  induction xs generalizing s with
  | nil => simp
  | cons x xs ih =>
      rcases ih (cullSphereStep frustum s x) with ⟨ih1, ih2⟩
      constructor
      · rw [List.foldl_cons, ih1]
        by_cases hb : x.baked <;>
          by_cases hf : frustum.sphereFrustum
            { x := x.position.x, y := x.position.y, z := x.position.z, r := x.range } <;>
          simp [cullSphereStep, sphereKeep, hb, hf]
      · rw [List.foldl_cons, ih2]
        by_cases hb : x.baked <;>
          by_cases hf : frustum.sphereFrustum
            { x := x.position.x, y := x.position.y, z := x.position.z, r := x.range } <;>
          simp [cullSphereStep, hb, hf]

theorem cullPointStep_foldl (frustum : Frustum) (xs : List PointLight)
    (s : ForwardLighting) :
    (xs.foldl (cullPointStep frustum) s).lights
        = s.lights ++ (xs.filter (pointKeep frustum)).map Light.point
      ∧ (xs.foldl (cullPointStep frustum) s).shadowEnabledSpotLights
        = s.shadowEnabledSpotLights := by
  induction xs generalizing s with
  | nil => simp
  | cons x xs ih =>
      rcases ih (cullPointStep frustum s x) with ⟨ih1, ih2⟩
      constructor
      · rw [List.foldl_cons, ih1]
        by_cases hb : x.baked <;>
          by_cases hf : frustum.sphereFrustum
            { x := x.position.x, y := x.position.y, z := x.position.z, r := x.range } <;>
          simp [cullPointStep, pointKeep, hb, hf]
      · rw [List.foldl_cons, ih2]
        by_cases hb : x.baked <;>
          by_cases hf : frustum.sphereFrustum
            { x := x.position.x, y := x.position.y, z := x.position.z, r := x.range } <;>
          simp [cullPointStep, hb, hf]

theorem cullRangedDirStep_foldl (frustum : Frustum) (xs : List RangedDirLight)
    (s : ForwardLighting) :
    (xs.foldl (cullRangedDirStep frustum) s).lights
        = s.lights ++ (xs.filter (rangedDirKeep frustum)).map Light.rangedDir
      ∧ (xs.foldl (cullRangedDirStep frustum) s).shadowEnabledSpotLights
        = s.shadowEnabledSpotLights := by
  induction xs generalizing s with
  | nil => simp
  | cons x xs ih =>
      rcases ih (cullRangedDirStep frustum s x) with ⟨ih1, ih2⟩
      constructor
      · rw [List.foldl_cons, ih1]
        by_cases hf : frustum.rangedDirAabbFrustum x.worldMatrix <;>
          simp [cullRangedDirStep, rangedDirKeep, hf]
      · rw [List.foldl_cons, ih2]
        by_cases hf : frustum.rangedDirAabbFrustum x.worldMatrix <;>
          simp [cullRangedDirStep, hf]

/-- Closed form of the `lights` sequence after `cullLights`. -/
theorem cullLights_lights (self : ForwardLighting) (scene : RenderScene)
    (frustum : Frustum) (cameraPos : Option Vec3Q) :
    (self.cullLights scene frustum cameraPos).lights
      = (scene.spotLights.filter (spotActiveKeep frustum)).map Light.spot
        ++ (scene.sphereLights.filter (sphereKeep frustum)).map Light.sphere
        ++ (scene.pointLights.filter (pointKeep frustum)).map Light.point
        ++ (scene.rangedDirLights.filter (rangedDirKeep frustum)).map Light.rangedDir := by
  unfold ForwardLighting.cullLights
  rcases cameraPos with _ | pos <;>
  · simp only []
    rw [(cullRangedDirStep_foldl frustum scene.rangedDirLights _).1,
      (cullPointStep_foldl frustum scene.pointLights _).1,
      (cullSphereStep_foldl frustum scene.sphereLights _).1,
      (cullSpotStep_foldl frustum scene.spotLights _).1]
    simp [List.append_assoc]

/-- Closed form of the `shadowEnabledSpotLights` sequence after `cullLights`. -/
theorem cullLights_shadow (self : ForwardLighting) (scene : RenderScene)
    (frustum : Frustum) (cameraPos : Option Vec3Q) :
    (self.cullLights scene frustum cameraPos).shadowEnabledSpotLights
      = match cameraPos with
        | some pos =>
            (scene.spotLights.filter (spotShadowKeep frustum)).mergeSort (spotDistLE pos)
        | none => scene.spotLights.filter (spotShadowKeep frustum) := by
  unfold ForwardLighting.cullLights
  rcases cameraPos with _ | pos <;>
  · simp only []
    rw [(cullRangedDirStep_foldl frustum scene.rangedDirLights _).2,
      (cullPointStep_foldl frustum scene.pointLights _).2,
      (cullSphereStep_foldl frustum scene.sphereLights _).2,
      (cullSpotStep_foldl frustum scene.spotLights _).2]
    simp

/-- A frustum whose black-box intersection tests accept everything. -/
def frustumTrue : Frustum :=
  { sphereFrustum := fun _ => true, rangedDirAabbFrustum := fun _ => true }

/-- A freshly constructed `ForwardLighting` instance (both sequences empty). -/
def emptyFL : ForwardLighting := { lights := [], shadowEnabledSpotLights := [] }

/-- C1 (amended): after `cullLights`, no light is in both sequences, and
baked spot, sphere and point lights are in neither sequence.  (The source
skips the baked check for ranged directional lights, so those are classified
regardless of the baked flag; see the counterexample.) -/
theorem c1_classification_partition (self : ForwardLighting) (scene : RenderScene)
    (frustum : Frustum) (cameraPos : Option Vec3Q) :
    (∀ s : SpotLight,
        ¬(Light.spot s ∈ (self.cullLights scene frustum cameraPos).lights
          ∧ s ∈ (self.cullLights scene frustum cameraPos).shadowEnabledSpotLights))
    ∧ (∀ s : SpotLight, s.baked = true →
        Light.spot s ∉ (self.cullLights scene frustum cameraPos).lights
        ∧ s ∉ (self.cullLights scene frustum cameraPos).shadowEnabledSpotLights)
    ∧ (∀ s : SphereLight, s.baked = true →
        Light.sphere s ∉ (self.cullLights scene frustum cameraPos).lights)
    ∧ (∀ p : PointLight, p.baked = true →
        Light.point p ∉ (self.cullLights scene frustum cameraPos).lights) := by
  have hsh : ∀ s : SpotLight,
      s ∈ (self.cullLights scene frustum cameraPos).shadowEnabledSpotLights →
      spotShadowKeep frustum s = true := by
    intro s hs
    rw [cullLights_shadow] at hs
    rcases cameraPos with _ | pos
    · exact (List.mem_filter.mp hs).2
    · exact (List.mem_filter.mp (List.mem_mergeSort.mp hs)).2
  have hlt : ∀ s : SpotLight,
      Light.spot s ∈ (self.cullLights scene frustum cameraPos).lights →
      spotActiveKeep frustum s = true := by
    intro s hs
    rw [cullLights_lights] at hs
    simp only [List.mem_append, List.mem_map] at hs
    rcases hs with ((⟨a, ha, hae⟩ | ⟨a, ha, hae⟩) | ⟨a, ha, hae⟩) | ⟨a, ha, hae⟩ <;>
      cases hae
    exact (List.mem_filter.mp ha).2
  refine ⟨?_, ?_, ?_, ?_⟩
  · rintro s ⟨h1, h2⟩
    have k1 := hlt s h1
    have k2 := hsh s h2
    simp only [spotActiveKeep, spotShadowKeep, Bool.and_eq_true, Bool.not_eq_true'] at k1 k2
    rw [k1.2] at k2
    exact absurd k2.2 (by simp)
  · intro s hb
    constructor
    · intro h
      have k := hlt s h
      simp only [spotActiveKeep, Bool.and_eq_true, Bool.not_eq_true'] at k
      rw [hb] at k
      exact absurd k.1.1 (by simp)
    · intro h
      have k := hsh s h
      simp only [spotShadowKeep, Bool.and_eq_true, Bool.not_eq_true'] at k
      rw [hb] at k
      exact absurd k.1.1 (by simp)
  · intro s hb h
    rw [cullLights_lights] at h
    simp only [List.mem_append, List.mem_map] at h
    rcases h with ((⟨a, ha, hae⟩ | ⟨a, ha, hae⟩) | ⟨a, ha, hae⟩) | ⟨a, ha, hae⟩ <;>
      cases hae
    have k := (List.mem_filter.mp ha).2
    simp only [sphereKeep, Bool.and_eq_true, Bool.not_eq_true'] at k
    rw [hb] at k
    exact absurd k.1 (by simp)
  · intro p hb h
    rw [cullLights_lights] at h
    simp only [List.mem_append, List.mem_map] at h
    rcases h with ((⟨a, ha, hae⟩ | ⟨a, ha, hae⟩) | ⟨a, ha, hae⟩) | ⟨a, ha, hae⟩ <;>
      cases hae
    have k := (List.mem_filter.mp ha).2
    simp only [pointKeep, Bool.and_eq_true, Bool.not_eq_true'] at k
    rw [hb] at k
    exact absurd k.1 (by simp)

/-- A baked spot light (for the C1 witness). -/
def bakedSpot : SpotLight :=
  { baked := true, shadowEnabled := false,
    position := { x := 0, y := 0, z := 0 }, range := 1 }

/-- A baked ranged directional light (for the C1 counterexample). -/
def bakedRanged : RangedDirLight := { baked := true, worldMatrix := [] }

/-- Scene holding one baked spot light and one baked ranged directional light. -/
def sceneC1 : RenderScene :=
  { mainLight := none, spotLights := [bakedSpot], sphereLights := [],
    pointLights := [], rangedDirLights := [bakedRanged] }

/-- C1 witness: at a concrete scene, the baked spot light lands in neither
sequence. -/
theorem c1_classification_partition_witness :
    bakedSpot.baked = true
    ∧ Light.spot bakedSpot ∉ (emptyFL.cullLights sceneC1 frustumTrue none).lights
    ∧ bakedSpot ∉ (emptyFL.cullLights sceneC1 frustumTrue none).shadowEnabledSpotLights := by
  refine ⟨rfl, ?_⟩
  have h := (c1_classification_partition emptyFL sceneC1 frustumTrue none).2.1
    bakedSpot rfl
  exact ⟨h.1, h.2⟩

/-- C1 counterexample: the claim as stated says every baked light appears in
neither sequence, but a baked ranged directional light that passes the AABB
test is appended to `lights` (the ranged-directional loop of `cullLights`
performs no baked check). -/
theorem c1_classification_partition_counterexample :
    bakedRanged.baked = true
    ∧ Light.rangedDir bakedRanged ∈ (emptyFL.cullLights sceneC1 frustumTrue none).lights := by
  constructor
  · rfl
  · rw [cullLights_lights]
    simp [sceneC1, rangedDirKeep, frustumTrue, spotActiveKeep, bakedSpot]

/-- C10: `cullLights` clears both sequences at entry, so its result is
independent of the previous classifier state, and repeating a call with the
same arguments is idempotent. -/
theorem c10_cullLights_history_independent (fl1 fl2 : ForwardLighting)
    (scene : RenderScene) (frustum : Frustum) (cameraPos : Option Vec3Q) :
    fl1.cullLights scene frustum cameraPos = fl2.cullLights scene frustum cameraPos
    ∧ (fl1.cullLights scene frustum cameraPos).cullLights scene frustum cameraPos
      = fl1.cullLights scene frustum cameraPos := by
  have h : ∀ a b : ForwardLighting,
      a.cullLights scene frustum cameraPos = b.cullLights scene frustum cameraPos := by
    intro a b
    cases a
    cases b
    rfl
  exact ⟨h fl1 fl2, h _ fl1⟩

/-- C6: with a camera position, the shadow-casting spot-light sequence after
`cullLights` is non-decreasing in squared distance to that position; with no
camera position it is the filtered scene iteration order, unsorted. -/
theorem c6_distance_ordering (self : ForwardLighting) (scene : RenderScene)
    (frustum : Frustum) (pos : Vec3Q)
    (h2 : 2 ≤ (scene.spotLights.filter (spotShadowKeep frustum)).length) :
    ((self.cullLights scene frustum (some pos)).shadowEnabledSpotLights).Pairwise
        (fun a b => Vec3Q.squaredDistance pos a.position
          ≤ Vec3Q.squaredDistance pos b.position)
    ∧ (self.cullLights scene frustum none).shadowEnabledSpotLights
      = scene.spotLights.filter (spotShadowKeep frustum) := by
  constructor
  · rw [cullLights_shadow]
    have hs := @List.sorted_mergeSort _ (spotDistLE pos)
      (fun a b c hab hbc => by
        simp only [spotDistLE, decide_eq_true_eq] at hab hbc ⊢
        exact le_trans hab hbc)
      (fun a b => by
        simp only [spotDistLE, Bool.or_eq_true, decide_eq_true_eq]
        exact le_total _ _)
      (scene.spotLights.filter (spotShadowKeep frustum))
    exact hs.imp (fun h => by
      simpa only [spotDistLE, decide_eq_true_eq] using h)
  · rw [cullLights_shadow]

/-- Two shadow-casting spot lights at distinct positions (for the C6 witness). -/
def shadowSpotA : SpotLight :=
  { baked := false, shadowEnabled := true,
    position := { x := 0, y := 0, z := 0 }, range := 1 }

/-- Second shadow-casting spot light (for the C6 witness). -/
def shadowSpotB : SpotLight :=
  { baked := false, shadowEnabled := true,
    position := { x := 1, y := 0, z := 0 }, range := 1 }

/-- Scene holding two shadow-casting spot lights. -/
def sceneC6 : RenderScene :=
  { mainLight := none, spotLights := [shadowSpotA, shadowSpotB], sphereLights := [],
    pointLights := [], rangedDirLights := [] }

/-- C6 witness: the ordering theorem applied at a concrete scene with two
shadow-casting spot lights. -/
theorem c6_distance_ordering_witness :
    2 ≤ (sceneC6.spotLights.filter (spotShadowKeep frustumTrue)).length
    ∧ ((emptyFL.cullLights sceneC6 frustumTrue
          (some { x := 0, y := 0, z := 0 })).shadowEnabledSpotLights).Pairwise
        (fun a b => Vec3Q.squaredDistance { x := 0, y := 0, z := 0 } a.position
          ≤ Vec3Q.squaredDistance { x := 0, y := 0, z := 0 } b.position) :=
  ⟨by decide,
    (c6_distance_ordering emptyFL sceneC6 frustumTrue
      { x := 0, y := 0, z := 0 } (by decide)).1⟩

/-- Light argument passed to `addScene` (either the main directional light
or one additive light). -/
inductive LightParam
  | dir : DirectionalLight → LightParam
  | add : Light → LightParam
deriving DecidableEq, Repr

/-- Record of a `useLightFrustum` call on a queue. -/
inductive LightFrustumRec
  | spotLF : SpotLight → LightFrustumRec
  | dirLF : DirectionalLight → Nat → LightFrustumRec
deriving DecidableEq, Repr

/-- Content item added to a draw queue. -/
inductive QueueItem
  | scene : Nat → Option LightParam → QueueItem
  | fullscreenQuad : String → Nat → QueueItem
  | cameraQuad : String → Nat → QueueItem
deriving DecidableEq, Repr

/-- Record of one draw queue opened by `addQueue` (hint, phase argument,
assigned `name`, optional queue viewport, content, `useLightFrustum` call). -/
structure QueueRec where
  hint : QueueHint
  phase : String
  qname : String
  viewport : Option ViewportQ
  items : List QueueItem
  lightFrustum : Option LightFrustumRec
deriving DecidableEq, Repr

/-- Record of one `addRenderTarget` call. -/
structure RenderTargetRec where
  rtName : String
  loadOp : LoadOp
  storeOp : Option StoreOp
  clearColor : Option ColorQ
deriving DecidableEq, Repr

/-- Record of one `addDepthStencil` call. -/
structure DepthStencilRec where
  dsName : String
  loadOp : LoadOp
  storeOp : Option StoreOp
  clearDepth : Option ℚ
  clearStencil : Option Nat
  clearFlags : Option Nat
deriving DecidableEq, Repr

/-- Record of one render pass declared through `ppl.addRenderPass`:
its layout argument, viewport space, assigned name, attachments, input
textures, vec4 parameters, draw queues and statistics flag. -/
structure Pass where
  layout : String
  width : ℚ
  height : ℚ
  passName : String
  passViewport : Option ViewportQ
  renderTargets : List RenderTargetRec
  depthStencils : List DepthStencilRec
  textures : List (String × String)
  vec4s : List (String × Vec4Q)
  queues : List QueueRec
  showStatistics : Bool
deriving DecidableEq, Repr

/-- `ppl.addRenderPass(width, height, layout)`: a fresh pass record. -/
def Pass.start (width height : ℚ) (layout : String) : Pass :=
  { layout := layout, width := width, height := height, passName := "",
    passViewport := none, renderTargets := [], depthStencils := [],
    textures := [], vec4s := [], queues := [], showStatistics := false }

/-- `pass.name = n`. -/
def Pass.withName (p : Pass) (n : String) : Pass := { p with passName := n }

/-- `pass.setViewport(vp)`. -/
def Pass.setViewportP (p : Pass) (vp : ViewportQ) : Pass :=
  { p with passViewport := some vp }

/-- `pass.addRenderTarget(name, loadOp, storeOp?, clearColor?)`. -/
def Pass.addRenderTarget (p : Pass) (n : String) (l : LoadOp) (s : Option StoreOp)
    (c : Option ColorQ) : Pass :=
  { p with renderTargets :=
      p.renderTargets ++ [{ rtName := n, loadOp := l, storeOp := s, clearColor := c }] }

/-- `pass.addDepthStencil(name, loadOp, storeOp?, depth?, stencil?, clearFlags?)`. -/
def Pass.addDepthStencil (p : Pass) (n : String) (l : LoadOp) (s : Option StoreOp)
    (d : Option ℚ) (st : Option Nat) (cf : Option Nat) : Pass :=
  let rec0 : DepthStencilRec :=
    { dsName := n, loadOp := l, storeOp := s, clearDepth := d,
      clearStencil := st, clearFlags := cf }
  { p with depthStencils := p.depthStencils ++ [rec0] }

/-- `pass.addTexture(resourceName, bindingSlot)`. -/
def Pass.addTexture (p : Pass) (res slot : String) : Pass :=
  { p with textures := p.textures ++ [(res, slot)] }

/-- `pass.setVec4(key, value)`. -/
def Pass.setVec4 (p : Pass) (k : String) (v : Vec4Q) : Pass :=
  { p with vec4s := p.vec4s ++ [(k, v)] }

/-- `pass.addQueue(...)` with everything subsequently added to the returned
queue builder. -/
def Pass.addQueue (p : Pass) (q : QueueRec) : Pass :=
  { p with queues := p.queues ++ [q] }

/-- A draw queue with no extras (phase defaults to the empty string when the
source omits the argument). -/
def mkQueue (hint : QueueHint) (phase qname : String) (items : List QueueItem) :
    QueueRec :=
  { hint := hint, phase := phase, qname := qname, viewport := none,
    items := items, lightFrustum := none }

/-- Modelled from the spec: `PipelineSettings` is defined in
`rendering/custom/settings.ts`, which is not under `src/`; the fields below
are exactly those the planner reads. -/
structure DepthOfFieldSettings where
  enabled : Bool
  focusDistance : ℚ
  focusRange : ℚ
  bokehRadius : ℚ
deriving DecidableEq, Repr

/-- Bloom block of `PipelineSettings` (see `DepthOfFieldSettings`). -/
structure BloomSettings where
  enabled : Bool
  iterations : Nat
  threshold : ℚ
  enableAlphaMask : Bool
deriving DecidableEq, Repr

/-- FXAA block of `PipelineSettings` (see `DepthOfFieldSettings`). -/
structure FxaaSettings where
  enabled : Bool
deriving DecidableEq, Repr

/-- `PipelineSettings` (see `DepthOfFieldSettings`). -/
structure PipelineSettings where
  enableShadingScale : Bool
  shadingScale : ℚ
  depthOfField : DepthOfFieldSettings
  bloom : BloomSettings
  fxaa : FxaaSettings
deriving DecidableEq, Repr

/-- `PipelineConfigs`: the once-per-activation capability snapshot.  The
`g_platform` vector is kept abstract (its derivation reads device queries
outside this file). -/
structure PipelineConfigs where
  isMobile : Bool
  isHDR : Bool
  useFloatOutput : Bool
  toneMappingType : Nat
  shadowMapSize : Vec2Q
  screenSpaceSignY : ℚ
  supportDepthSample : Bool
  mobileMaxSpotLightShadowMaps : Nat
  g_platform : Vec4Q
deriving Repr

/-- `CameraConfigs`: per-camera derived policy. -/
structure CameraConfigs where
  enableShadowMap : Bool
  enablePostProcess : Bool
  enableProfiler : Bool
  enableShadingScale : Bool
  shadingScale : ℚ
  pipelineSettings : Option PipelineSettings
deriving DecidableEq, Repr

/-- Modelled from the spec: `CameraUsage` is declared in the render-scene
camera module, not under `src/`; the planner tests the three usages below,
and `EDITOR` stands for any other usage value. -/
inductive CameraUsage
  | GAME
  | SCENE_VIEW
  | PREVIEW
  | EDITOR
deriving DecidableEq, Repr

/-- `RenderWindow` attributes read by the planner. -/
structure WindowRec where
  width : ℚ
  height : ℚ
  renderWindowId : Nat
  colorName : String
  depthStencilName : String
  swapchain : Bool
deriving DecidableEq, Repr

/-- `Camera` attributes read by the planner.  `scene` and `window` are
optional because `setup` skips cameras where either is null. -/
structure Camera where
  scene : Option RenderScene
  window : Option WindowRec
  cameraUsage : CameraUsage
  usePostProcess : Bool
  pipelineSettings : Option PipelineSettings
  clearFlag : Nat
  clearColor : ColorQ
  clearDepth : ℚ
  clearStencil : Nat
  viewport : Vec4Q
  frustum : Frustum
  position : Vec3Q

/-- `ppl.pipelineSceneData` attributes read during pass composition
(`shadows.size` and `csmSupported`). -/
structure PplData where
  shadowsSize : Vec2Q
  csmSupported : Bool
deriving DecidableEq, Repr

/-- Modelled from the spec: editor override state provided by
`rendering/custom/framework.ts` (not under `src/`); `getEditorPipelineSettings`
returns `editorPipelineSettings`, and `editorPipelineCameraUsePostProcess`
is `some b` exactly when `getEditorPipelineCamera` returns a camera whose
`usePostProcess` flag is `b` (and `none` when it returns null).  `debug` is
the build-time `DEBUG` constant. -/
structure FrameworkEnv where
  editorPipelineSettings : Option PipelineSettings
  editorPipelineCameraUsePostProcess : Option Bool
  debug : Bool
deriving DecidableEq, Repr

/-- `forwardNeedClearColor(camera)`. -/
def forwardNeedClearColor (camera : Camera) : Bool :=
  camera.clearFlag &&& (clearFlagColor ||| (clearFlagStencil <<< 1)) ≠ 0

/-- `getCsmMainLightViewport(light, w, h, level, vp, screenSpaceSignY)`:
the viewport value left in `vp`. -/
def getCsmMainLightViewport (light : DirectionalLight) (w h : ℚ) (level : Nat)
    (screenSpaceSignY : ℚ) : ViewportQ :=
  let vp : ViewportQ :=
    if light.shadowFixedArea || light.csmLevel == 1 then
      { left := 0, top := 0, width := (jsTrunc w : ℚ), height := (jsTrunc h : ℚ) }
    else
      { left := (jsTrunc (((level % 2 : Nat) : ℚ) * (1/2 : ℚ) * w) : ℚ),
        top :=
          if screenSpaceSignY > 0 then
            (jsTrunc ((((1 : ℤ) - ((level / 2 : Nat) : ℤ)) : ℚ) * (1/2 : ℚ) * h) : ℚ)
          else
            (jsTrunc ((((level / 2 : Nat) : ℤ) : ℚ) * (1/2 : ℚ) * h) : ℚ),
        width := (jsTrunc ((1/2 : ℚ) * w) : ℚ),
        height := (jsTrunc ((1/2 : ℚ) * h) : ℚ) }
  { left := max 0 vp.left, top := max 0 vp.top,
    width := max 1 vp.width, height := max 1 vp.height }

/-- `setupCameraConfigs(camera, pipelineConfigs, cameraConfigs)`: the state
written into the camera-policy record.  `win` is the (non-null) window of
the camera, whose `swapchain` field the source reads unconditionally. -/
def setupCameraConfigs (camera : Camera) (win : WindowRec)
    (pipelineConfigs : PipelineConfigs) (fw : FrameworkEnv) : CameraConfigs :=
  let enableShadowMap :=
    match camera.scene with
    | some scene =>
        match scene.mainLight with
        | some ml => ml.shadowEnabled
        | none => false
    | none => false
  let isMainGameWindow := camera.cameraUsage == CameraUsage.GAME && win.swapchain
  let isEditorView := camera.cameraUsage == CameraUsage.SCENE_VIEW
    || camera.cameraUsage == CameraUsage.PREVIEW
  let enablePostProcess := pipelineConfigs.useFloatOutput && camera.usePostProcess
    && (isMainGameWindow || isEditorView)
  let enableProfiler := fw.debug && isMainGameWindow
  let pipelineSettings := camera.pipelineSettings
  let resolved :=
    if isEditorView then
      match fw.editorPipelineSettings with
      | some es =>
          (some es,
            pipelineConfigs.useFloatOutput
              && (match fw.editorPipelineCameraUsePostProcess with
                  | some b => b
                  | none => false))
      | none => ((none : Option PipelineSettings), false)
    else (pipelineSettings, enablePostProcess)
  let pipelineSettings := resolved.1
  let enablePostProcess := resolved.2
  { enableShadowMap := enableShadowMap,
    enablePostProcess := enablePostProcess,
    enableProfiler := enableProfiler,
    enableShadingScale :=
      match pipelineSettings with
      | some st => st.enableShadingScale
      | none => false,
    shadingScale :=
      match pipelineSettings with
      | some st => st.shadingScale
      | none => 1,
    pipelineSettings := pipelineSettings }

/-- `Math.max(Math.floor(q), 1)` as used for native and scaled sizes. -/
def maxFloor1 (q : ℚ) : ℚ := ((max (jsFloor q) 1 : ℤ) : ℚ)

/-- The working-resolution formula shared by `windowResize` (lines 358-363)
and both pipeline builders (lines 478-483 and 556-561): the native size when
shading scale is disabled, otherwise `Math.max(Math.floor(native * shadingScale), 1)`. -/
def scaledWindowSize (cameraConfigs : CameraConfigs) (native : ℚ) : ℚ :=
  if cameraConfigs.enableShadingScale then
    maxFloor1 (native * cameraConfigs.shadingScale)
  else native

/-- `this._clearColorOpaqueBlack`. -/
def clearColorOpaqueBlack : ColorQ := { x := 0, y := 0, z := 0, w := 0 }

/-- `new Color(1, 1, 1, 1)` used to clear shadow maps. -/
def colorWhite : ColorQ := { x := 1, y := 1, z := 1, w := 1 }

/-- `ForwardLighting._addLightQueues(camera, pass)`: one additive blend queue
per active light, named after the light variant.  The `unknown-light` default
of the source switch is unreachable over the closed variant sum. -/
def ForwardLighting.addLightQueuesFn (self : ForwardLighting) (pass : Pass) : Pass :=
  self.lights.foldl (fun pass light =>
    let qn :=
      match light with
      | Light.sphere _ => "sphere-light"
      | Light.spot _ => "spot-light"
      | Light.point _ => "point-light"
      | Light.rangedDir _ => "ranged-directional-light"
    pass.addQueue (mkQueue QueueHint.BLEND "forward-add" qn
      [QueueItem.scene sceneFlagBlend (some (LightParam.add light))])) pass

/-- The for-loop of `addMobileShadowPasses`, with its post-increment break
(`++i; if (i >= maxNumShadowMaps) break;`). -/
def mobileShadowLoop (lights : List SpotLight) (i : Nat) (shadowMapSize : Vec2Q)
    (maxNumShadowMaps : Nat) : List Pass :=
  match lights with
  | [] => []
  | light :: rest =>
      let shadowPass := (Pass.start shadowMapSize.x shadowMapSize.y "default").withName
        ("SpotLightShadowPass" ++ toString i)
      let shadowPass := shadowPass.addRenderTarget ("SpotShadowMap" ++ toString i)
        LoadOp.CLEAR (some StoreOp.STORE) (some colorWhite)
      let shadowPass := shadowPass.addDepthStencil ("SpotShadowDepth" ++ toString i)
        LoadOp.CLEAR (some StoreOp.DISCARD) none none none
      let shadowPass := shadowPass.addQueue
        { hint := QueueHint.NONE, phase := "shadow-caster", qname := "",
          viewport := none,
          items := [QueueItem.scene
            (sceneFlagOpaque ||| sceneFlagMask ||| sceneFlagShadowCaster) none],
          lightFrustum := some (LightFrustumRec.spotLF light) }
      if i + 1 ≥ maxNumShadowMaps then [shadowPass]
      else shadowPass :: mobileShadowLoop rest (i + 1) shadowMapSize maxNumShadowMaps

/-- `ForwardLighting.addMobileShadowPasses(ppl, camera, maxNumShadowMaps)`. -/
def ForwardLighting.addMobileShadowPasses (self : ForwardLighting) (ppl : PplData)
    (maxNumShadowMaps : Nat) : List Pass :=
  mobileShadowLoop self.shadowEnabledSpotLights 0 ppl.shadowsSize maxNumShadowMaps

/-- The for-loop of `addMobileLightQueues`, with its post-increment break. -/
def mobileLightQueueLoop (lights : List SpotLight) (i maxNumShadowMaps : Nat)
    (pass : Pass) : Pass :=
  match lights with
  | [] => pass
  | light :: rest =>
      let pass := pass.addTexture ("SpotShadowMap" ++ toString i) "cc_spotShadowMap"
      let pass := pass.addQueue (mkQueue QueueHint.BLEND "forward-add" ""
        [QueueItem.scene sceneFlagBlend (some (LightParam.add (Light.spot light)))])
      if i + 1 ≥ maxNumShadowMaps then pass
      else mobileLightQueueLoop rest (i + 1) maxNumShadowMaps pass

/-- `ForwardLighting.addMobileLightQueues(pass, camera, maxNumShadowMaps)`. -/
def ForwardLighting.addMobileLightQueues (self : ForwardLighting)
    (maxNumShadowMaps : Nat) (pass : Pass) : Pass :=
  mobileLightQueueLoop self.shadowEnabledSpotLights 0 maxNumShadowMaps
    (self.addLightQueuesFn pass)

/-- The per-spot-light shadow-caster pass of `addLightPasses` (reuses the
CSM shadow-map resource). -/
def desktopSpotShadowPass (id : Nat) (shadowMapSize : Vec2Q)
    (light : SpotLight) : Pass :=
  let shadowPass := (Pass.start shadowMapSize.x shadowMapSize.y "default").withName
    "SpotlightShadowPass"
  let shadowPass := shadowPass.addRenderTarget ("ShadowMap" ++ toString id)
    LoadOp.CLEAR (some StoreOp.STORE) (some colorWhite)
  let shadowPass := shadowPass.addDepthStencil ("ShadowDepth" ++ toString id)
    LoadOp.CLEAR (some StoreOp.DISCARD) none none none
  shadowPass.addQueue
    { hint := QueueHint.NONE, phase := "shadow-caster", qname := "",
      viewport := none,
      items := [QueueItem.scene
        (sceneFlagOpaque ||| sceneFlagMask ||| sceneFlagShadowCaster) none],
      lightFrustum := some (LightFrustumRec.spotLF light) }

/-- The per-spot-light lighting pass of `addLightPasses`, chained from the
previous output via LOAD. -/
def desktopSpotLightPass (colorName depthStencilName : String) (id : Nat)
    (width height : ℚ) (light : SpotLight) : Pass :=
  let newPass := (Pass.start width height "default").withName "SpotlightWithShadowMap"
  let newPass := newPass.addRenderTarget colorName LoadOp.LOAD none none
  let newPass := newPass.addDepthStencil depthStencilName LoadOp.LOAD none none none none
  let newPass := newPass.addTexture ("ShadowMap" ++ toString id) "cc_spotShadowMap"
  newPass.addQueue (mkQueue QueueHint.BLEND "forward-add" ""
    [QueueItem.scene sceneFlagBlend (some (LightParam.add (Light.spot light)))])

/-- One iteration of the shadow-casting-spot-light loop of `addLightPasses`:
emit one shadow-caster pass, then open a new lighting pass chained from the
previous output via LOAD. -/
def desktopLightStep (colorName depthStencilName : String) (id : Nat)
    (width height : ℚ) (shadowMapSize : Vec2Q) (acc : List Pass × Pass)
    (light : SpotLight) : List Pass × Pass :=
  (acc.1 ++ [acc.2, desktopSpotShadowPass id shadowMapSize light],
    desktopSpotLightPass colorName depthStencilName id width height light)

/-- `ForwardLighting.addLightPasses(colorName, depthStencilName, id, width,
height, camera, ppl, pass)`: returns the passes emitted before the final one
together with the final (still open) pass. -/
def ForwardLighting.addLightPasses (self : ForwardLighting)
    (colorName depthStencilName : String) (id : Nat) (width height : ℚ)
    (ppl : PplData) (pass : Pass) : List Pass × Pass :=
  let pass := self.addLightQueuesFn pass
  self.shadowEnabledSpotLights.foldl
    (desktopLightStep colorName depthStencilName id width height ppl.shadowsSize)
    ([], pass)

/-- `_addCascadedShadowMapPass(ppl, id, light, camera)`. -/
def addCascadedShadowMapPass (ppl : PplData) (configs : PipelineConfigs) (id : Nat)
    (light : DirectionalLight) : Pass :=
  let width := ppl.shadowsSize.x
  let height := ppl.shadowsSize.y
  let pass := (Pass.start width height "default").withName "CSM"
  let pass := pass.addRenderTarget ("ShadowMap" ++ toString id) LoadOp.CLEAR
    (some StoreOp.STORE) (some colorWhite)
  let pass := pass.addDepthStencil ("ShadowDepth" ++ toString id) LoadOp.CLEAR
    (some StoreOp.DISCARD) none none none
  let csmLevel := if ppl.csmSupported then light.csmLevel else 1
  (List.range csmLevel).foldl (fun pass level =>
    let vp := getCsmMainLightViewport light width height level configs.screenSpaceSignY
    pass.addQueue
      { hint := QueueHint.NONE, phase := "shadow-caster", qname := "",
        viewport := some vp,
        items := [QueueItem.scene
          (sceneFlagOpaque ||| sceneFlagMask ||| sceneFlagShadowCaster) none],
        lightFrustum := some (LightFrustumRec.dirLF light level) }) pass

/-- `_addCopyPass(ppl, width, height, input, output)`. -/
def addCopyPass (configs : PipelineConfigs) (width height : ℚ)
    (input output : String) : Pass :=
  ((((Pass.start width height "post-copy").addRenderTarget output LoadOp.CLEAR
      (some StoreOp.STORE) (some clearColorOpaqueBlack)).addTexture input
      "inputTexture").setVec4 "g_platform" configs.g_platform).addQueue
    (mkQueue QueueHint.OPAQUE "" "" [QueueItem.fullscreenQuad "copyAndTonemapMaterial" 2])

/-- `_addCopyAndTonemapPass(ppl, width, height, radianceName, colorName)`. -/
def addCopyAndTonemapPass (configs : PipelineConfigs) (width height : ℚ)
    (radianceName colorName : String) : Pass :=
  ((((Pass.start width height "post-final-tonemap").addRenderTarget colorName
      LoadOp.CLEAR (some StoreOp.STORE) (some clearColorOpaqueBlack)).addTexture
      radianceName "inputTexture").setVec4 "g_platform" configs.g_platform).addQueue
    (mkQueue QueueHint.OPAQUE "" "" [QueueItem.fullscreenQuad "copyAndTonemapMaterial" 1])

/-- `_addFxaaPass(ppl, width, height, ldrColorName, colorName)`; the
`texSize` material property write is external material state. -/
def addFxaaPass (configs : PipelineConfigs) (width height : ℚ)
    (ldrColorName colorName : String) : Pass :=
  ((((Pass.start width height "fxaa").addRenderTarget colorName LoadOp.CLEAR
      (some StoreOp.STORE) (some clearColorOpaqueBlack)).addTexture ldrColorName
      "sceneColorMap").setVec4 "cc_cameraPos" configs.g_platform).addQueue
    (mkQueue QueueHint.OPAQUE "" "" [QueueItem.fullscreenQuad "fxaaMaterial" 0])

/-- The camera viewport scaled to a given size (the `_viewport` scratch
prepared by the radiance-pass builders). -/
def cameraScaledViewport (camera : Camera) (width height : ℚ) : ViewportQ :=
  { left := (jsFloor (camera.viewport.x * width) : ℚ),
    top := (jsFloor (camera.viewport.y * height) : ℚ),
    width := (jsFloor (camera.viewport.z * width) : ℚ),
    height := (jsFloor (camera.viewport.w * height) : ℚ) }

/-- `_buildForwardMainLightPass(pass, id, camera, colorName, depthStencilName,
mainLight)`. -/
def buildForwardMainLightPass (cameraConfigs : CameraConfigs) (pass : Pass)
    (id : Nat) (camera : Camera) (colorName depthStencilName : String)
    (mainLight : Option DirectionalLight) (viewport : ViewportQ)
    (clearColor : ColorQ) : Pass :=
  let pass := pass.setViewportP viewport
  let pass :=
    if forwardNeedClearColor camera then
      pass.addRenderTarget colorName LoadOp.CLEAR (some StoreOp.STORE) (some clearColor)
    else
      pass.addRenderTarget colorName LoadOp.LOAD none none
  let pass :=
    if camera.clearFlag &&& clearFlagDepthStencil ≠ 0 then
      pass.addDepthStencil depthStencilName LoadOp.CLEAR (some StoreOp.STORE)
        (some camera.clearDepth) (some camera.clearStencil)
        (some (camera.clearFlag &&& clearFlagDepthStencil))
    else
      pass.addDepthStencil depthStencilName LoadOp.LOAD none none none none
  let pass :=
    if cameraConfigs.enableShadowMap then
      pass.addTexture ("ShadowMap" ++ toString id) "cc_shadowMap"
    else pass
  pass.addQueue (mkQueue QueueHint.NONE "" ""
    [QueueItem.scene (sceneFlagOpaque ||| sceneFlagMask) (mainLight.map LightParam.dir)])

/-- `_addForwardRadiancePasses(ppl, id, camera, width, height, mainLight,
colorName, depthStencilName)`: passes emitted before the final one, plus the
final pass carrying the transparent blend queue. -/
def addForwardRadiancePasses (cameraConfigs : CameraConfigs) (fl : ForwardLighting)
    (ppl : PplData) (id : Nat) (camera : Camera) (width height : ℚ)
    (mainLight : Option DirectionalLight) (colorName depthStencilName : String) :
    List Pass × Pass :=
  let vp := cameraScaledViewport camera width height
  let pass := (Pass.start width height "default").withName "ForwardPass"
  let pass := buildForwardMainLightPass cameraConfigs pass id camera colorName
    depthStencilName mainLight vp camera.clearColor
  let r := fl.addLightPasses colorName depthStencilName id width height ppl pass
  (r.1, r.2.addQueue (mkQueue QueueHint.BLEND "" ""
    [QueueItem.scene sceneFlagBlend (mainLight.map LightParam.dir)]))

/-- `_addMobileForwardRadiancePass(ppl, id, camera, width, height, colorName,
depthStencilName, mainLight)`: the single shared mobile forward pass. -/
def addMobileForwardRadiancePass (configs : PipelineConfigs)
    (cameraConfigs : CameraConfigs) (fl : ForwardLighting) (id : Nat)
    (camera : Camera) (width height : ℚ) (colorName depthStencilName : String)
    (mainLight : Option DirectionalLight) : Pass :=
  let vp := cameraScaledViewport camera width height
  let pass := (Pass.start width height "default").withName "ForwardPass"
  let pass := buildForwardMainLightPass cameraConfigs pass id camera colorName
    depthStencilName mainLight vp camera.clearColor
  let pass := fl.addMobileLightQueues configs.mobileMaxSpotLightShadowMaps pass
  pass.addQueue (mkQueue QueueHint.BLEND "" ""
    [QueueItem.scene sceneFlagBlend (mainLight.map LightParam.dir)])

/-- `_addDepthOfFieldPasses(...)`: the 5 depth-of-field sub-passes.  The
`cocParams` and `mainTexTexelSize` material property writes are external
material state. -/
def addDepthOfFieldPasses (configs : PipelineConfigs) (id : Nat)
    (width height : ℚ) (dofRadianceName depthStencil radianceName : String) :
    List Pass :=
  let halfWidth := maxFloor1 (width / 2)
  let halfHeight := maxFloor1 (height / 2)
  let cocName := "LdrColor" ++ toString id
  let prefilterName := "DofPrefilter" ++ toString id
  let bokehName := "DofBokeh" ++ toString id
  let filterName := "DofFilter" ++ toString id
  let cocPass := ((Pass.start width height "dof-coc").addRenderTarget cocName
    LoadOp.CLEAR (some StoreOp.STORE) (some clearColorOpaqueBlack)).addTexture
    depthStencil "DepthTex"
  let cocPass := cocPass.addQueue (mkQueue QueueHint.OPAQUE "" ""
    [QueueItem.cameraQuad "dofMaterial" 0])
  let prefilterPass := (((Pass.start halfWidth halfHeight "dof-prefilter").addRenderTarget
    prefilterName LoadOp.CLEAR (some StoreOp.STORE)
    (some clearColorOpaqueBlack)).addTexture cocName "cocTex").addTexture
    dofRadianceName "colorTex"
  let prefilterPass := (prefilterPass.setVec4 "cc_cameraPos" configs.g_platform).addQueue
    (mkQueue QueueHint.OPAQUE "" "" [QueueItem.fullscreenQuad "dofMaterial" 1])
  let bokehPass := ((Pass.start halfWidth halfHeight "dof-bokeh").addRenderTarget
    bokehName LoadOp.CLEAR (some StoreOp.STORE)
    (some clearColorOpaqueBlack)).addTexture prefilterName "prefilterTex"
  let bokehPass := (bokehPass.setVec4 "cc_cameraPos" configs.g_platform).addQueue
    (mkQueue QueueHint.OPAQUE "" "" [QueueItem.fullscreenQuad "dofMaterial" 2])
  let filterPass := ((Pass.start halfWidth halfHeight "dof-filter").addRenderTarget
    filterName LoadOp.CLEAR (some StoreOp.STORE)
    (some clearColorOpaqueBlack)).addTexture bokehName "bokehTex"
  let filterPass := (filterPass.setVec4 "cc_cameraPos" configs.g_platform).addQueue
    (mkQueue QueueHint.OPAQUE "" "" [QueueItem.fullscreenQuad "dofMaterial" 3])
  let combinePass := ((((Pass.start width height "dof-combine").addRenderTarget
    radianceName LoadOp.CLEAR (some StoreOp.STORE)
    (some clearColorOpaqueBlack)).addTexture filterName "filterTex").addTexture
    dofRadianceName "colorTex").addTexture cocName "cocTex"
  let combinePass := (combinePass.setVec4 "cc_cameraPos" configs.g_platform).addQueue
    (mkQueue QueueHint.OPAQUE "" "" [QueueItem.fullscreenQuad "dofMaterial" 4])
  [cocPass, prefilterPass, bokehPass, filterPass, combinePass]

/-- One halving step of the bloom size chain:
`Math.max(Math.floor(prev / 2), 1)`. -/
def bloomSizeStep (q : ℚ) : ℚ := maxFloor1 (q / 2)

/-- `this._bloomWidths[i]` (and `_bloomHeights[i]`) as a function of the
working size: index 0 is the half-size prefilter, each later index halves
the previous one, clamped to at least 1. -/
def bloomSize (base : ℚ) : Nat → ℚ
  | 0 => bloomSizeStep base
  | Nat.succ n => bloomSizeStep (bloomSize base n)

/-- `this._bloomTexNames[i]`. -/
def bloomTexName (id i : Nat) : String :=
  "BloomTex" ++ toString id ++ "_" ++ toString i

/-- The `bloomParams` vector: `x` is assigned from `useFloatOutput` and then
immediately overwritten with 0 (dead store preserved); `y` is never written
anywhere in the source and keeps its initial 0. -/
def bloomParamsOf (st : PipelineSettings) : Vec4Q :=
  { x := 0, y := 0, z := st.bloom.threshold,
    w := if st.bloom.enableAlphaMask then 1 else 0 }

/-- The `bloomTexSize` vector for the level feeding a down/upsample pass
(`z` and `w` are never written and keep their initial 0). -/
def bloomTexSizeOf (width height : ℚ) (i : Nat) : Vec4Q :=
  { x := bloomSize width i, y := bloomSize height i, z := 0, w := 0 }

/-- The bloom prefilter pass. -/
def bloomPrefilterPass (configs : PipelineConfigs) (st : PipelineSettings)
    (id : Nat) (width height : ℚ) (radianceName : String) : Pass :=
  (((((Pass.start (bloomSize width 0) (bloomSize height 0)
      "bloom1-prefilter").addRenderTarget (bloomTexName id 0) LoadOp.CLEAR
      (some StoreOp.STORE) (some clearColorOpaqueBlack)).addTexture radianceName
      "inputTexture").setVec4 "g_platform" configs.g_platform).setVec4 "bloomParams"
      (bloomParamsOf st)).addQueue
    (mkQueue QueueHint.OPAQUE "" "" [QueueItem.fullscreenQuad "bloomMaterial" 0])

/-- The bloom downsample pass for level `i` (called with `i` from 1 to
`iterations`). -/
def bloomDownPass (configs : PipelineConfigs) (id : Nat) (width height : ℚ)
    (i : Nat) : Pass :=
  (((((Pass.start (bloomSize width i) (bloomSize height i)
      "bloom1-downsample").addRenderTarget (bloomTexName id i) LoadOp.CLEAR
      (some StoreOp.STORE) (some clearColorOpaqueBlack)).addTexture
      (bloomTexName id (i - 1)) "bloomTexture").setVec4 "g_platform"
      configs.g_platform).setVec4 "bloomTexSize"
      (bloomTexSizeOf width height (i - 1))).addQueue
    (mkQueue QueueHint.OPAQUE "" "" [QueueItem.fullscreenQuad "bloomMaterial" 1])

/-- The bloom upsample pass for level `i` (called with `i` from
`iterations - 1` down to 0). -/
def bloomUpPass (configs : PipelineConfigs) (id : Nat) (width height : ℚ)
    (i : Nat) : Pass :=
  (((((Pass.start (bloomSize width i) (bloomSize height i)
      "bloom1-upsample").addRenderTarget (bloomTexName id i) LoadOp.CLEAR
      (some StoreOp.STORE) (some clearColorOpaqueBlack)).addTexture
      (bloomTexName id (i + 1)) "bloomTexture").setVec4 "g_platform"
      configs.g_platform).setVec4 "bloomTexSize"
      (bloomTexSizeOf width height (i + 1))).addQueue
    (mkQueue QueueHint.OPAQUE "" "" [QueueItem.fullscreenQuad "bloomMaterial" 2])

/-- The bloom combine pass: blends the finest bloom level onto the radiance
target, loading it (no clear). -/
def bloomCombinePass (configs : PipelineConfigs) (st : PipelineSettings)
    (id : Nat) (width height : ℚ) (radianceName : String) : Pass :=
  (((((Pass.start width height "bloom1-combine").addRenderTarget radianceName
      LoadOp.LOAD (some StoreOp.STORE) none).addTexture (bloomTexName id 0)
      "bloomTexture").setVec4 "g_platform" configs.g_platform).setVec4 "bloomParams"
      (bloomParamsOf st)).addQueue
    (mkQueue QueueHint.BLEND "" "" [QueueItem.fullscreenQuad "bloomMaterial" 3])

/-- `_addKawaseDualFilterBloomPasses(ppl, settings, id, width, height,
radianceName)`: prefilter, `iterations` downsamples, `iterations` upsamples
(in reverse level order), combine. -/
def addKawaseDualFilterBloomPasses (configs : PipelineConfigs)
    (st : PipelineSettings) (id : Nat) (width height : ℚ)
    (radianceName : String) : List Pass :=
  let iterations := st.bloom.iterations
  [bloomPrefilterPass configs st id width height radianceName]
    ++ (List.range' 1 iterations).map (bloomDownPass configs id width height)
    ++ ((List.range iterations).reverse).map (bloomUpPass configs id width height)
    ++ [bloomCombinePass configs st id width height radianceName]

/-- `_addUIQueue(camera, pass)`: appends the UI blend queue to the given
pass (and raises the statistics flag when the profiler is enabled). -/
def addUIQueue (cameraConfigs : CameraConfigs) (pass : Pass) : Pass :=
  let flags :=
    if cameraConfigs.enableProfiler then sceneFlagUI ||| sceneFlagProfiler
    else sceneFlagUI
  let pass :=
    if cameraConfigs.enableProfiler then { pass with showStatistics := true }
    else pass
  pass.addQueue (mkQueue QueueHint.BLEND "" "" [QueueItem.scene flags none])

/-- `_buildForwardPipeline(ppl, camera, scene)`: the desktop composition, as
the ordered pass trace it emits.  `win` is the (non-null) window of the
camera.  The source applies a non-null assertion to `mainLight` in the
shadow branch; the impossible null case contributes no pass here. -/
def buildForwardPipeline (ppl : PplData) (configs : PipelineConfigs)
    (cameraConfigs : CameraConfigs) (fl0 : ForwardLighting) (camera : Camera)
    (win : WindowRec) (scene : RenderScene) : List Pass :=
  let settings := cameraConfigs.pipelineSettings
  let nativeWidth := maxFloor1 win.width
  let nativeHeight := maxFloor1 win.height
  let width := scaledWindowSize cameraConfigs nativeWidth
  let height := scaledWindowSize cameraConfigs nativeHeight
  let id := win.renderWindowId
  let colorName := win.colorName
  let depthStencilName := win.depthStencilName
  let dofRadianceName := "DofRadiance" ++ toString id
  let radianceName := "Radiance" ++ toString id
  let ldrColorName := "LdrColor" ++ toString id
  let aaColorName := "AaColor" ++ toString id
  let mainLight := scene.mainLight
  let fl := fl0.cullLights scene camera.frustum none
  let csmPasses : List Pass :=
    if cameraConfigs.enableShadowMap then
      match mainLight with
      | some ml => [addCascadedShadowMapPass ppl configs id ml]
      | none => []
    else []
  let tail : List Pass :=
    if configs.useFloatOutput then
      match cameraConfigs.enablePostProcess, settings with
      | true, some st =>
          let fr :=
            if configs.supportDepthSample && st.depthOfField.enabled then
              let r := addForwardRadiancePasses cameraConfigs fl ppl id camera
                width height mainLight dofRadianceName depthStencilName
              (r.1 ++ [r.2]) ++ addDepthOfFieldPasses configs id width height
                dofRadianceName depthStencilName radianceName
            else
              let r := addForwardRadiancePasses cameraConfigs fl ppl id camera
                width height mainLight radianceName depthStencilName
              r.1 ++ [r.2]
          let bloomPasses :=
            if st.bloom.enabled then
              addKawaseDualFilterBloomPasses configs st id width height radianceName
            else []
          if st.fxaa.enabled then
            if cameraConfigs.enableShadingScale then
              let tonemapPass := addCopyAndTonemapPass configs width height
                radianceName ldrColorName
              let fxaaPass := addFxaaPass configs width height ldrColorName aaColorName
              let lastPass := addCopyPass configs nativeWidth nativeHeight
                aaColorName colorName
              fr ++ bloomPasses ++ [tonemapPass, fxaaPass, addUIQueue cameraConfigs lastPass]
            else
              let tonemapPass := addCopyAndTonemapPass configs width height
                radianceName ldrColorName
              let lastPass := addFxaaPass configs nativeWidth nativeHeight
                ldrColorName colorName
              fr ++ bloomPasses ++ [tonemapPass, addUIQueue cameraConfigs lastPass]
          else
            let lastPass := addCopyAndTonemapPass configs nativeWidth nativeHeight
              radianceName colorName
            fr ++ bloomPasses ++ [addUIQueue cameraConfigs lastPass]
      | _, _ =>
          let r := addForwardRadiancePasses cameraConfigs fl ppl id camera
            width height mainLight radianceName depthStencilName
          let lastPass := addCopyAndTonemapPass configs nativeWidth nativeHeight
            radianceName colorName
          (r.1 ++ [r.2]) ++ [addUIQueue cameraConfigs lastPass]
    else if cameraConfigs.enableShadingScale then
      let r := addForwardRadiancePasses cameraConfigs fl ppl id camera
        width height mainLight radianceName depthStencilName
      let lastPass := addCopyAndTonemapPass configs nativeWidth nativeHeight
        radianceName colorName
      (r.1 ++ [r.2]) ++ [addUIQueue cameraConfigs lastPass]
    else
      let r := addForwardRadiancePasses cameraConfigs fl ppl id camera
        nativeWidth nativeHeight mainLight colorName depthStencilName
      r.1 ++ [addUIQueue cameraConfigs r.2]
  csmPasses ++ tail

/-- `_buildMobileForwardPipeline(ppl, camera, scene)`: the mobile
composition, as the ordered pass trace it emits. -/
def buildMobileForwardPipeline (ppl : PplData) (configs : PipelineConfigs)
    (cameraConfigs : CameraConfigs) (fl0 : ForwardLighting) (camera : Camera)
    (win : WindowRec) (scene : RenderScene) : List Pass :=
  let nativeWidth := maxFloor1 win.width
  let nativeHeight := maxFloor1 win.height
  let width := scaledWindowSize cameraConfigs nativeWidth
  let height := scaledWindowSize cameraConfigs nativeHeight
  let id := win.renderWindowId
  let colorName := win.colorName
  let depthStencilName := win.depthStencilName
  let radianceName := "Radiance" ++ toString id
  let mainLight := scene.mainLight
  let fl := fl0.cullLights scene camera.frustum (some camera.position)
  let csmPasses : List Pass :=
    if cameraConfigs.enableShadowMap then
      match mainLight with
      | some ml => [addCascadedShadowMapPass ppl configs id ml]
      | none => []
    else []
  let spotShadowPasses := fl.addMobileShadowPasses ppl
    configs.mobileMaxSpotLightShadowMaps
  let tail : List Pass :=
    if configs.useFloatOutput || cameraConfigs.enableShadingScale then
      let fwdPass := addMobileForwardRadiancePass configs cameraConfigs fl id
        camera width height radianceName depthStencilName mainLight
      let lastPass := addCopyAndTonemapPass configs nativeWidth nativeHeight
        radianceName colorName
      [fwdPass, addUIQueue cameraConfigs lastPass]
    else
      let fwdPass := addMobileForwardRadiancePass configs cameraConfigs fl id
        camera nativeWidth nativeHeight colorName depthStencilName mainLight
      [addUIQueue cameraConfigs fwdPass]
  csmPasses ++ spotShadowPasses ++ tail

/-- Modelled from the spec at the asset-loading boundary: which of the four
shared post-process materials have a loaded effect asset when
`_initMaterials` runs (`material.effectAsset !== null`). -/
structure MaterialsEnv where
  tonemapLoaded : Bool
  dofLoaded : Bool
  bloomLoaded : Bool
  fxaaLoaded : Bool
deriving DecidableEq, Repr

/-- All four shared materials have loaded effect assets. -/
def MaterialsEnv.allLoaded (env : MaterialsEnv) : Bool :=
  env.tonemapLoaded && env.dofLoaded && env.bloomLoaded && env.fxaaLoaded

/-- `_initMaterials(ppl)`: returns the numeric return value together with
the new `_initialized` flag.  Material initialization calls mutate only
external asset state. -/
def initMaterials (initialized : Bool) (env : MaterialsEnv) : Nat × Bool :=
  if initialized then (0, initialized)
  else
    let initialized := env.allLoaded
    (if initialized then 0 else 1, initialized)

/-- Whether `setup` skips a camera (`camera.scene === null || camera.window
=== null`). -/
def cameraValid (camera : Camera) : Bool :=
  camera.scene.isSome && camera.window.isSome

/-- One iteration of the camera loop of `setup`: invalid cameras (null
scene or window) are skipped, valid ones recompute the camera policy and
compose the platform pipeline. -/
def setupCameraStep (ppl : PplData) (configs : PipelineConfigs)
    (fw : FrameworkEnv) (acc : List Pass) (camera : Camera) : List Pass :=
  match camera.scene, camera.window with
  | some scene, some win =>
      let cameraConfigs := setupCameraConfigs camera win configs fw
      if configs.isMobile then
        acc ++ buildMobileForwardPipeline ppl configs cameraConfigs emptyFL
          camera win scene
      else
        acc ++ buildForwardPipeline ppl configs cameraConfigs emptyFL
          camera win scene
  | _, _ => acc

/-- `setup(cameras, ppl)`: the full per-frame pass trace together with the
new `_initialized` flag.  The persistent `forwardLighting` member is passed
as `emptyFL` to each build: `cullLights` clears it on entry, so the carried
state is irrelevant to the trace (see the history-independence theorem). -/
def setup (cameras : List Camera) (ppl : PplData) (configs : PipelineConfigs)
    (fw : FrameworkEnv) (initialized : Bool) (env : MaterialsEnv) :
    List Pass × Bool :=
  let r := initMaterials initialized env
  if r.1 ≠ 0 then ([], r.2)
  else
    (cameras.foldl (setupCameraStep ppl configs fw) [], r.2)

@[simp]
theorem Pass.addQueue_passName (p : Pass) (q : QueueRec) :
    (p.addQueue q).passName = p.passName := rfl

@[simp]
theorem Pass.addQueue_layout (p : Pass) (q : QueueRec) :
    (p.addQueue q).layout = p.layout := rfl

@[simp]
theorem Pass.addQueue_width (p : Pass) (q : QueueRec) :
    (p.addQueue q).width = p.width := rfl

@[simp]
theorem Pass.addQueue_height (p : Pass) (q : QueueRec) :
    (p.addQueue q).height = p.height := rfl

@[simp]
theorem Pass.addQueue_renderTargets (p : Pass) (q : QueueRec) :
    (p.addQueue q).renderTargets = p.renderTargets := rfl

@[simp]
theorem Pass.addQueue_queues (p : Pass) (q : QueueRec) :
    (p.addQueue q).queues = p.queues ++ [q] := rfl

/-- Number of passes in a list whose assigned name is `nm`. -/
def countName (nm : String) (ps : List Pass) : Nat :=
  (ps.filter (fun p => p.passName == nm)).length

theorem countName_append (nm : String) (ps qs : List Pass) :
    countName nm (ps ++ qs) = countName nm ps + countName nm qs := by
  simp [countName, List.filter_append]

/-- `_addLightQueues` only appends queues: the pass name is unchanged. -/
theorem addLightQueuesFn_passName (self : ForwardLighting) (pass : Pass) :
    (self.addLightQueuesFn pass).passName = pass.passName := by
  unfold ForwardLighting.addLightQueuesFn
  induction self.lights generalizing pass with
  | nil => rfl
  | cons x xs ih => rw [List.foldl_cons, ih]; rfl

/-- `_addLightQueues` only appends queues: the layout is unchanged. -/
theorem addLightQueuesFn_layout (self : ForwardLighting) (pass : Pass) :
    (self.addLightQueuesFn pass).layout = pass.layout := by
  unfold ForwardLighting.addLightQueuesFn
  induction self.lights generalizing pass with
  | nil => rfl
  | cons x xs ih => rw [List.foldl_cons, ih]; rfl

@[simp]
theorem Pass.withName_passName (p : Pass) (n : String) :
    (p.withName n).passName = n := rfl

@[simp]
theorem Pass.withName_layout (p : Pass) (n : String) :
    (p.withName n).layout = p.layout := rfl

@[simp]
theorem Pass.addRenderTarget_passName (p : Pass) (n : String) (l : LoadOp)
    (s : Option StoreOp) (c : Option ColorQ) :
    (p.addRenderTarget n l s c).passName = p.passName := rfl

@[simp]
theorem Pass.addRenderTarget_layout (p : Pass) (n : String) (l : LoadOp)
    (s : Option StoreOp) (c : Option ColorQ) :
    (p.addRenderTarget n l s c).layout = p.layout := rfl

@[simp]
theorem Pass.addDepthStencil_passName (p : Pass) (n : String) (l : LoadOp)
    (s : Option StoreOp) (d : Option ℚ) (st : Option Nat) (cf : Option Nat) :
    (p.addDepthStencil n l s d st cf).passName = p.passName := rfl

@[simp]
theorem Pass.addDepthStencil_layout (p : Pass) (n : String) (l : LoadOp)
    (s : Option StoreOp) (d : Option ℚ) (st : Option Nat) (cf : Option Nat) :
    (p.addDepthStencil n l s d st cf).layout = p.layout := rfl

@[simp]
theorem Pass.addTexture_passName (p : Pass) (res slot : String) :
    (p.addTexture res slot).passName = p.passName := rfl

@[simp]
theorem Pass.addTexture_layout (p : Pass) (res slot : String) :
    (p.addTexture res slot).layout = p.layout := rfl

@[simp]
theorem Pass.setVec4_passName (p : Pass) (k : String) (v : Vec4Q) :
    (p.setVec4 k v).passName = p.passName := rfl

@[simp]
theorem Pass.setVec4_layout (p : Pass) (k : String) (v : Vec4Q) :
    (p.setVec4 k v).layout = p.layout := rfl

@[simp]
theorem Pass.setViewportP_passName (p : Pass) (vp : ViewportQ) :
    (p.setViewportP vp).passName = p.passName := rfl

@[simp]
theorem Pass.setViewportP_layout (p : Pass) (vp : ViewportQ) :
    (p.setViewportP vp).layout = p.layout := rfl

@[simp]
theorem Pass.start_layout (w h : ℚ) (l : String) : (Pass.start w h l).layout = l := rfl

@[simp]
theorem Pass.start_passName (w h : ℚ) (l : String) : (Pass.start w h l).passName = "" := rfl

theorem countName_nil (nm : String) : countName nm [] = 0 := rfl

theorem countName_cons (nm : String) (p : Pass) (ps : List Pass) :
    countName nm (p :: ps)
      = (if nm = p.passName then 1 else 0) + countName nm ps := by
  by_cases h : p.passName = nm
  · subst h
    simp [countName, List.filter_cons, Nat.add_comm]
  · simp [countName, List.filter_cons, h, Ne.symm h]

/-- One desktop spot-light iteration adds exactly one pass named
`SpotlightShadowPass` (and one named `SpotlightWithShadowMap`). -/
theorem desktopLightStep_countName (cn dn : String) (id : Nat) (w h : ℚ)
    (sz : Vec2Q) (acc : List Pass × Pass) (x : SpotLight) (nm : String) :
    countName nm ((desktopLightStep cn dn id w h sz acc x).1
        ++ [(desktopLightStep cn dn id w h sz acc x).2])
      = countName nm (acc.1 ++ [acc.2])
        + ((if nm = "SpotlightShadowPass" then 1 else 0)
          + (if nm = "SpotlightWithShadowMap" then 1 else 0)) := by
  have hacc : countName nm (acc.1 ++ [acc.2])
      = countName nm acc.1 + ((if nm = acc.2.passName then 1 else 0) + 0) := by
    rw [countName_append, countName_cons, countName_nil]
  show countName nm ((acc.1 ++ [acc.2, _]) ++ [_]) = _
  rw [countName_append, countName_append, countName_cons, countName_cons,
    countName_nil, countName_cons, countName_nil, hacc]
  simp only [desktopLightStep, desktopSpotShadowPass, desktopSpotLightPass,
    Pass.addQueue_passName, Pass.addTexture_passName,
    Pass.addDepthStencil_passName, Pass.addRenderTarget_passName,
    Pass.withName_passName]
  omega

/-- Folding the desktop spot-light step adds exactly one pass named
`SpotlightShadowPass` per light, and leaves the count of any other name
unchanged, counting the final open pass as part of the emitted list. -/
theorem desktopLightStep_foldl_countName (cn dn : String) (id : Nat)
    (w h : ℚ) (sz : Vec2Q) (xs : List SpotLight) (acc : List Pass × Pass)
    (nm : String) :
    countName nm (((xs.foldl (desktopLightStep cn dn id w h sz) acc).1)
        ++ [(xs.foldl (desktopLightStep cn dn id w h sz) acc).2])
      = countName nm (acc.1 ++ [acc.2])
        + ((if nm = "SpotlightShadowPass" then xs.length else 0)
          + (if nm = "SpotlightWithShadowMap" then xs.length else 0)) := by
  induction xs generalizing acc with
  | nil => simp
  | cons x xs ih =>
      rw [List.foldl_cons, ih, desktopLightStep_countName]
      by_cases h1 : nm = "SpotlightShadowPass" <;>
        by_cases h2 : nm = "SpotlightWithShadowMap" <;>
        simp [h1, h2] <;> omega

/-- Length of the mobile shadow-pass loop: one pass per processed light,
where the post-increment break stops after `k - i` more lights. -/
theorem mobileShadowLoop_length (lights : List SpotLight) (sz : Vec2Q)
    (k : Nat) (i : Nat) (hik : i < k) :
    (mobileShadowLoop lights i sz k).length = min lights.length (k - i) := by
  induction lights generalizing i with
  | nil => simp [mobileShadowLoop]
  | cons x rest ih =>
      unfold mobileShadowLoop
      by_cases hb : i + 1 ≥ k
      · rw [if_pos hb]
        simp only [List.length_singleton, List.length_cons, List.length_nil]
        omega
      · rw [if_neg hb]
        rw [List.length_cons, ih (i + 1) (by omega)]
        simp only [List.length_cons]
        omega

/-- C2 (amended): with `maxNumShadowMaps = k ≥ 1` and `m > k` shadow-casting
spot lights, the mobile variant emits exactly `k` spot-light shadow passes
(extras silently dropped), while the desktop variant `addLightPasses`
consumes no cap at all and emits one `SpotlightShadowPass` per
shadow-casting spot light, i.e. `m` of them. -/
theorem c2_shadow_map_cap (fl : ForwardLighting) (ppl : PplData) (k m : Nat)
    (hm : fl.shadowEnabledSpotLights.length = m) (hk : 1 ≤ k) (hmk : k < m)
    (cn dn : String) (id : Nat) (w h : ℚ) (pass : Pass)
    (hp : pass.passName = "ForwardPass") :
    (fl.addMobileShadowPasses ppl k).length = k
    ∧ countName "SpotlightShadowPass"
        ((fl.addLightPasses cn dn id w h ppl pass).1
          ++ [(fl.addLightPasses cn dn id w h ppl pass).2]) = m := by
  constructor
  · unfold ForwardLighting.addMobileShadowPasses
    rw [mobileShadowLoop_length _ _ _ _ (by omega), hm]
    omega
  · unfold ForwardLighting.addLightPasses
    rw [desktopLightStep_foldl_countName]
    rw [hm]
    have h0 : countName "SpotlightShadowPass" ([] ++ [fl.addLightQueuesFn pass]) = 0 := by
      rw [List.nil_append, countName_cons, countName_nil, addLightQueuesFn_passName, hp]
      simp
    rw [h0]
    simp

/-- Classifier state holding two shadow-casting spot lights (C2 inputs). -/
def flTwoShadow : ForwardLighting :=
  { lights := [], shadowEnabledSpotLights := [shadowSpotA, shadowSpotB] }

/-- Concrete scene data for pass builders. -/
def pplDefault : PplData := { shadowsSize := { x := 512, y := 512 }, csmSupported := true }

/-- A fresh forward pass (the pass handed to `addLightPasses` by
`_addForwardRadiancePasses`). -/
def forwardPassC2 : Pass := (Pass.start 64 64 "default").withName "ForwardPass"

/-- C2 witness: with `k = 1` and `m = 2`, mobile emits 1 shadow pass and
desktop emits 2. -/
theorem c2_shadow_map_cap_witness :
    flTwoShadow.shadowEnabledSpotLights.length = 2
    ∧ 1 ≤ 1 ∧ 1 < 2
    ∧ forwardPassC2.passName = "ForwardPass"
    ∧ (flTwoShadow.addMobileShadowPasses pplDefault 1).length = 1
    ∧ countName "SpotlightShadowPass"
        ((flTwoShadow.addLightPasses "Color" "DepthStencil" 0 64 64 pplDefault
            forwardPassC2).1
          ++ [(flTwoShadow.addLightPasses "Color" "DepthStencil" 0 64 64 pplDefault
            forwardPassC2).2]) = 2 := by
  refine ⟨by decide, by decide, by decide, by decide, ?_, ?_⟩
  · exact (c2_shadow_map_cap flTwoShadow pplDefault 1 2 (by decide) (by decide)
      (by decide) "Color" "DepthStencil" 0 64 64 forwardPassC2 (by decide)).1
  · exact (c2_shadow_map_cap flTwoShadow pplDefault 1 2 (by decide) (by decide)
      (by decide) "Color" "DepthStencil" 0 64 64 forwardPassC2 (by decide)).2

/-- C2 counterexample: the claim as stated says the desktop variant also
emits exactly `k` spot-light shadow passes; with `k = 1` and `m = 2` the
desktop variant emits 2, not 1. -/
theorem c2_shadow_map_cap_counterexample :
    ¬ (countName "SpotlightShadowPass"
        ((flTwoShadow.addLightPasses "Color" "DepthStencil" 0 64 64 pplDefault
            forwardPassC2).1
          ++ [(flTwoShadow.addLightPasses "Color" "DepthStencil" 0 64 64 pplDefault
            forwardPassC2).2]) = 1) := by
  decide

theorem one_le_maxFloor1 (q : ℚ) : 1 ≤ maxFloor1 q := by
  unfold maxFloor1
  have h : (1 : ℤ) ≤ max (jsFloor q) 1 := le_max_right _ _
  exact_mod_cast h

theorem maxFloor1_le_of_le (q r : ℚ) (hq : q ≤ r) (hr : 1 ≤ r) :
    maxFloor1 q ≤ r := by
  unfold maxFloor1 jsFloor
  rw [Int.cast_max]
  apply max_le
  · exact le_trans (Int.floor_le q) hq
  · exact_mod_cast hr

/-- C7 (amended): for native sizes that are at least 1 (as the pipeline
builders guarantee by clamping `camera.window` sizes), the shared working
resolution equals the native size when shading scale is disabled, otherwise
`max(floor(native * shadingScale), 1)`; it is deterministic, at least 1, and
at most the native size whenever `shadingScale ≤ 1`.  The builder-side native
size `maxFloor1 q` satisfies the premise for every window size `q`. -/
theorem c7_resolution_scaling (cc : CameraConfigs) (native : ℚ)
    (hn : 1 ≤ native) :
    (cc.enableShadingScale = false → scaledWindowSize cc native = native)
    ∧ (cc.enableShadingScale = true →
        scaledWindowSize cc native = maxFloor1 (native * cc.shadingScale))
    ∧ scaledWindowSize cc native = scaledWindowSize cc native
    ∧ 1 ≤ scaledWindowSize cc native
    ∧ (cc.shadingScale ≤ 1 → scaledWindowSize cc native ≤ native)
    ∧ (∀ q : ℚ, 1 ≤ maxFloor1 q) := by
  refine ⟨?_, ?_, rfl, ?_, ?_, one_le_maxFloor1⟩
  · intro h
    simp [scaledWindowSize, h]
  · intro h
    simp [scaledWindowSize, h]
  · unfold scaledWindowSize
    by_cases h : cc.enableShadingScale
    · rw [if_pos h]
      exact one_le_maxFloor1 _
    · rw [if_neg h]
      exact hn
  · intro hs
    unfold scaledWindowSize
    by_cases h : cc.enableShadingScale
    · rw [if_pos h]
      apply maxFloor1_le_of_le _ _ _ hn
      calc native * cc.shadingScale ≤ native * 1 := by
              apply mul_le_mul_of_nonneg_left hs (by linarith)
        _ = native := mul_one native
    · rw [if_neg h]

/-- A camera policy with shading scale disabled (C7 inputs). -/
def ccNoScale : CameraConfigs :=
  { enableShadowMap := false, enablePostProcess := false, enableProfiler := false,
    enableShadingScale := false, shadingScale := 1, pipelineSettings := none }

/-- C7 witness: the theorem applied at native size 4 with scaling disabled. -/
theorem c7_resolution_scaling_witness :
    (1 : ℚ) ≤ 4
    ∧ (ccNoScale.enableShadingScale = false → scaledWindowSize ccNoScale 4 = 4)
    ∧ 1 ≤ scaledWindowSize ccNoScale 4
    ∧ (ccNoScale.shadingScale ≤ 1 → scaledWindowSize ccNoScale 4 ≤ 4) := by
  have hn : (1 : ℚ) ≤ 4 := by norm_num
  have h := c7_resolution_scaling ccNoScale 4 hn
  exact ⟨hn, h.1, h.2.2.2.1, h.2.2.2.2.1⟩

/-- C7 counterexample: the claim quantifies over every native size, but at
native size 0 with shading scale disabled the resource-planner computation
returns 0 (not clamped to 1); and with shading scale enabled at factor 1/2 it
returns 1, which exceeds the native size 0 even though the factor is below 1. -/
theorem c7_resolution_scaling_counterexample :
    ¬ (1 ≤ scaledWindowSize ccNoScale 0) := by
  unfold scaledWindowSize ccNoScale
  norm_num

/-- C8 (amended): after `setupCameraConfigs`, `enablePostProcess` is true
only if float output is supported, the camera is a main game view or an
editor/scene view, and post-process is requested (by the camera itself, or
by the editor override camera for editor views).  When no settings object
resolves, `enableShadingScale` is false and `shadingScale` is 1.0, and for
editor views `enablePostProcess` is also forced false; for game views,
however, `enablePostProcess` does not depend on the settings object (see the
counterexample). -/
theorem c8_camera_policy (camera : Camera) (win : WindowRec)
    (configs : PipelineConfigs) (fw : FrameworkEnv) :
    ((setupCameraConfigs camera win configs fw).enablePostProcess = true →
        configs.useFloatOutput = true
        ∧ ((camera.cameraUsage == CameraUsage.GAME && win.swapchain) = true
            ∨ (camera.cameraUsage == CameraUsage.SCENE_VIEW
                || camera.cameraUsage == CameraUsage.PREVIEW) = true)
        ∧ (camera.usePostProcess = true
            ∨ fw.editorPipelineCameraUsePostProcess = some true))
    ∧ ((setupCameraConfigs camera win configs fw).pipelineSettings = none →
        (setupCameraConfigs camera win configs fw).enableShadingScale = false
        ∧ (setupCameraConfigs camera win configs fw).shadingScale = 1)
    ∧ ((camera.cameraUsage == CameraUsage.SCENE_VIEW
          || camera.cameraUsage == CameraUsage.PREVIEW) = true →
        (setupCameraConfigs camera win configs fw).pipelineSettings = none →
        (setupCameraConfigs camera win configs fw).enablePostProcess = false) := by
  unfold setupCameraConfigs
  by_cases hev : (camera.cameraUsage == CameraUsage.SCENE_VIEW
      || camera.cameraUsage == CameraUsage.PREVIEW) = true
  · rcases hfe : fw.editorPipelineSettings with _ | es
    · simp [hev, hfe]
    · rcases hec : fw.editorPipelineCameraUsePostProcess with _ | b
      · simp [hev, hfe, hec]
      · cases b <;> simp [hev, hfe, hec]
  · simp only [Bool.not_eq_true] at hev
    simp [hev]
    constructor
    · intro h1 h2 h3 h4
      exact ⟨h1, ⟨h3, h4⟩, Or.inl h2⟩
    · intro h
      simp [h]

/-- A main game window with a swapchain. -/
def winGame : WindowRec :=
  { width := 800, height := 600, renderWindowId := 0, colorName := "Color0",
    depthStencilName := "DepthStencil0", swapchain := true }

/-- A game camera requesting post-process but carrying no settings object. -/
def cameraGameNoSettings : Camera :=
  { scene := none, window := some winGame, cameraUsage := CameraUsage.GAME,
    usePostProcess := true, pipelineSettings := none, clearFlag := 7,
    clearColor := { x := 0, y := 0, z := 0, w := 1 }, clearDepth := 1,
    clearStencil := 0, viewport := { x := 0, y := 0, z := 1, w := 1 },
    frustum := frustumTrue, position := { x := 0, y := 0, z := 0 } }

/-- A capability snapshot with float output supported (desktop). -/
def configsFloat : PipelineConfigs :=
  { isMobile := false, isHDR := true, useFloatOutput := true,
    toneMappingType := 0, shadowMapSize := { x := 512, y := 512 },
    screenSpaceSignY := 1, supportDepthSample := true,
    mobileMaxSpotLightShadowMaps := 1, g_platform := { x := 0, y := 0, z := 0, w := 0 } }

/-- Framework state with no editor overrides and DEBUG off. -/
def fwNone : FrameworkEnv :=
  { editorPipelineSettings := none, editorPipelineCameraUsePostProcess := none,
    debug := false }

/-- C8 witness: the policy invariant applied at a concrete game camera whose
resolved `enablePostProcess` is true. -/
theorem c8_camera_policy_witness :
    (setupCameraConfigs cameraGameNoSettings winGame configsFloat fwNone).enablePostProcess
        = true
    ∧ configsFloat.useFloatOutput = true
    ∧ ((cameraGameNoSettings.cameraUsage == CameraUsage.GAME && winGame.swapchain) = true
        ∨ (cameraGameNoSettings.cameraUsage == CameraUsage.SCENE_VIEW
            || cameraGameNoSettings.cameraUsage == CameraUsage.PREVIEW) = true)
    ∧ (cameraGameNoSettings.usePostProcess = true
        ∨ fwNone.editorPipelineCameraUsePostProcess = some true) :=
  ⟨by decide,
    (c8_camera_policy cameraGameNoSettings winGame configsFloat fwNone).1 (by decide)⟩

/-- C8 counterexample: the claim as stated says that when no settings object
resolves, `enablePostProcess` and `enableShadingScale` are both false; for
this game camera the settings object is null yet `enablePostProcess` stays
true. -/
theorem c8_camera_policy_counterexample :
    (setupCameraConfigs cameraGameNoSettings winGame configsFloat fwNone).pipelineSettings
        = none
    ∧ (setupCameraConfigs cameraGameNoSettings winGame configsFloat
        fwNone).enablePostProcess = true := by
  constructor <;> decide

theorem floor_half_double (n : ℕ) : ⌊(1 / 2 : ℚ) * (2 * n)⌋ = n := by
  rw [show (1 / 2 : ℚ) * (2 * n) = (n : ℚ) by ring]
  exact Int.floor_natCast n

/-- Membership of a point in a viewport rectangle. -/
def ViewportQ.containsPt (vp : ViewportQ) (x y : ℚ) : Prop :=
  vp.left ≤ x ∧ x < vp.left + vp.width ∧ vp.top ≤ y ∧ y < vp.top + vp.height

/-- The four CSM viewports on an even-sized `2a x 2b` map, positive
screen-space Y sign. -/
theorem csm_vps_pos (light : DirectionalLight) (hfa : light.shadowFixedArea = false)
    (hcl : light.csmLevel = 4) (a b : ℕ) (ha : 1 ≤ a) (hb : 1 ≤ b)
    (sign : ℚ) (hs : 0 < sign) :
    getCsmMainLightViewport light (2 * a) (2 * b) 0 sign
        = { left := 0, top := (b : ℚ), width := (a : ℚ), height := (b : ℚ) }
    ∧ getCsmMainLightViewport light (2 * a) (2 * b) 1 sign
        = { left := (a : ℚ), top := (b : ℚ), width := (a : ℚ), height := (b : ℚ) }
    ∧ getCsmMainLightViewport light (2 * a) (2 * b) 2 sign
        = { left := 0, top := 0, width := (a : ℚ), height := (b : ℚ) }
    ∧ getCsmMainLightViewport light (2 * a) (2 * b) 3 sign
        = { left := (a : ℚ), top := 0, width := (a : ℚ), height := (b : ℚ) } := by
  have ha0 : (1 : ℚ) ≤ (a : ℚ) := by exact_mod_cast ha
  have hb0 : (1 : ℚ) ≤ (b : ℚ) := by exact_mod_cast hb
  refine ⟨?_, ?_, ?_, ?_⟩ <;>
  · unfold getCsmMainLightViewport
    rw [hfa, hcl]
    simp only [Bool.false_or, beq_iff_eq]
    rw [if_neg (by norm_num : ¬ (4 = 1)), if_pos hs]
    simp only [ViewportQ.mk.injEq, jsTrunc]
    norm_num [floor_half_double]
    repeat' apply And.intro
    all_goals omega

/-- The four CSM viewports on an even-sized `2a x 2b` map, negative
screen-space Y sign (row order flipped). -/
theorem csm_vps_neg (light : DirectionalLight) (hfa : light.shadowFixedArea = false)
    (hcl : light.csmLevel = 4) (a b : ℕ) (ha : 1 ≤ a) (hb : 1 ≤ b)
    (sign : ℚ) (hs : sign < 0) :
    getCsmMainLightViewport light (2 * a) (2 * b) 0 sign
        = { left := 0, top := 0, width := (a : ℚ), height := (b : ℚ) }
    ∧ getCsmMainLightViewport light (2 * a) (2 * b) 1 sign
        = { left := (a : ℚ), top := 0, width := (a : ℚ), height := (b : ℚ) }
    ∧ getCsmMainLightViewport light (2 * a) (2 * b) 2 sign
        = { left := 0, top := (b : ℚ), width := (a : ℚ), height := (b : ℚ) }
    ∧ getCsmMainLightViewport light (2 * a) (2 * b) 3 sign
        = { left := (a : ℚ), top := (b : ℚ), width := (a : ℚ), height := (b : ℚ) } := by
  have ha0 : (1 : ℚ) ≤ (a : ℚ) := by exact_mod_cast ha
  have hb0 : (1 : ℚ) ≤ (b : ℚ) := by exact_mod_cast hb
  refine ⟨?_, ?_, ?_, ?_⟩ <;>
  · unfold getCsmMainLightViewport
    rw [hfa, hcl]
    simp only [Bool.false_or, beq_iff_eq]
    rw [if_neg (by norm_num : ¬ (4 = 1)), if_neg (not_lt.mpr (le_of_lt hs))]
    simp only [ViewportQ.mk.injEq, jsTrunc]
    norm_num [floor_half_double]
    repeat' apply And.intro
    all_goals omega

theorem containsPt_mk (l t w h x y : ℚ) :
    (ViewportQ.containsPt { left := l, top := t, width := w, height := h } x y)
      ↔ (l ≤ x ∧ x < l + w ∧ t ≤ y ∧ y < t + h) := Iff.rfl

/-- C5 (amended): under 4-level CSM with fixed-area off, for every EVEN
shadow-map size `2a x 2b` (`a, b ≥ 1`) and either sign convention, the four
level viewports are pairwise disjoint, cover the whole map, and the row
order flips between positive and negative screen-space Y sign.  (For odd
sizes the truncated half-extents do not cover the map; see the
counterexample.) -/
theorem c5_csm_viewport_partition (light : DirectionalLight)
    (hfa : light.shadowFixedArea = false) (hcl : light.csmLevel = 4)
    (a b : ℕ) (ha : 1 ≤ a) (hb : 1 ≤ b) (sign : ℚ)
    (hsign : 0 < sign ∨ sign < 0) :
    (∀ x y : ℚ, 0 ≤ x → x < 2 * a → 0 ≤ y → y < 2 * b →
        ∃ l, l < 4
          ∧ (getCsmMainLightViewport light (2 * a) (2 * b) l sign).containsPt x y)
    ∧ (∀ l1 l2 : Nat, l1 < 4 → l2 < 4 → l1 ≠ l2 → ∀ x y : ℚ,
        (getCsmMainLightViewport light (2 * a) (2 * b) l1 sign).containsPt x y →
        ¬ (getCsmMainLightViewport light (2 * a) (2 * b) l2 sign).containsPt x y)
    ∧ (0 < sign →
        (getCsmMainLightViewport light (2 * a) (2 * b) 0 sign).top = (b : ℚ)
        ∧ (getCsmMainLightViewport light (2 * a) (2 * b) 1 sign).top = (b : ℚ)
        ∧ (getCsmMainLightViewport light (2 * a) (2 * b) 2 sign).top = 0
        ∧ (getCsmMainLightViewport light (2 * a) (2 * b) 3 sign).top = 0)
    ∧ (sign < 0 →
        (getCsmMainLightViewport light (2 * a) (2 * b) 0 sign).top = 0
        ∧ (getCsmMainLightViewport light (2 * a) (2 * b) 1 sign).top = 0
        ∧ (getCsmMainLightViewport light (2 * a) (2 * b) 2 sign).top = (b : ℚ)
        ∧ (getCsmMainLightViewport light (2 * a) (2 * b) 3 sign).top = (b : ℚ)) := by
  rcases hsign with hs | hs
  · obtain ⟨e0, e1, e2, e3⟩ := csm_vps_pos light hfa hcl a b ha hb sign hs
    refine ⟨?_, ?_, ?_, ?_⟩
    · intro x y hx0 hx2 hy0 hy2
      rcases lt_or_le x a with hx | hx <;> rcases lt_or_le y b with hy | hy
      · refine ⟨2, by norm_num, ?_⟩
        rw [e2, containsPt_mk]
        refine ⟨by linarith, by linarith, by linarith, by linarith⟩
      · refine ⟨0, by norm_num, ?_⟩
        rw [e0, containsPt_mk]
        refine ⟨by linarith, by linarith, by linarith, by linarith⟩
      · refine ⟨3, by norm_num, ?_⟩
        rw [e3, containsPt_mk]
        refine ⟨by linarith, by linarith, by linarith, by linarith⟩
      · refine ⟨1, by norm_num, ?_⟩
        rw [e1, containsPt_mk]
        refine ⟨by linarith, by linarith, by linarith, by linarith⟩
    · intro l1 l2 hl1 hl2 hne x y hc1 hc2
      interval_cases l1 <;> interval_cases l2 <;>
        simp only [e0, e1, e2, e3, containsPt_mk] at hc1 hc2 <;>
        first
        | exact hne rfl
        | (obtain ⟨p1, p2, p3, p4⟩ := hc1
           obtain ⟨q1, q2, q3, q4⟩ := hc2
           linarith)
    · intro _
      rw [e0, e1, e2, e3]
      exact ⟨rfl, rfl, rfl, rfl⟩
    · intro hneg
      linarith
  · obtain ⟨e0, e1, e2, e3⟩ := csm_vps_neg light hfa hcl a b ha hb sign hs
    refine ⟨?_, ?_, ?_, ?_⟩
    · intro x y hx0 hx2 hy0 hy2
      rcases lt_or_le x a with hx | hx <;> rcases lt_or_le y b with hy | hy
      · refine ⟨0, by norm_num, ?_⟩
        rw [e0, containsPt_mk]
        refine ⟨by linarith, by linarith, by linarith, by linarith⟩
      · refine ⟨2, by norm_num, ?_⟩
        rw [e2, containsPt_mk]
        refine ⟨by linarith, by linarith, by linarith, by linarith⟩
      · refine ⟨1, by norm_num, ?_⟩
        rw [e1, containsPt_mk]
        refine ⟨by linarith, by linarith, by linarith, by linarith⟩
      · refine ⟨3, by norm_num, ?_⟩
        rw [e3, containsPt_mk]
        refine ⟨by linarith, by linarith, by linarith, by linarith⟩
    · intro l1 l2 hl1 hl2 hne x y hc1 hc2
      interval_cases l1 <;> interval_cases l2 <;>
        simp only [e0, e1, e2, e3, containsPt_mk] at hc1 hc2 <;>
        first
        | exact hne rfl
        | (obtain ⟨p1, p2, p3, p4⟩ := hc1
           obtain ⟨q1, q2, q3, q4⟩ := hc2
           linarith)
    · intro hpos
      linarith
    · intro _
      rw [e0, e1, e2, e3]
      exact ⟨rfl, rfl, rfl, rfl⟩

/-- A 4-level-CSM directional light with fixed-area shadows off. -/
def dirLight4 : DirectionalLight :=
  { shadowEnabled := true, shadowFixedArea := false, csmLevel := 4 }

/-- C5 witness: the partition theorem applied at a concrete even 2 x 2 map
with positive sign, evaluated at the point (0, 0). -/
theorem c5_csm_viewport_partition_witness :
    dirLight4.shadowFixedArea = false ∧ dirLight4.csmLevel = 4
    ∧ (∃ l, l < 4
        ∧ (getCsmMainLightViewport dirLight4 (2 * (1 : ℕ)) (2 * (1 : ℕ)) l
            1).containsPt 0 0) := by
  refine ⟨rfl, rfl, ?_⟩
  exact (c5_csm_viewport_partition dirLight4 rfl rfl 1 1 (le_refl 1) (le_refl 1) 1
    (Or.inl one_pos)).1 0 0 (le_refl 0) (by simp) (le_refl 0) (by simp)

/-- C5 counterexample: the claim quantifies over every shadow-map size, but
on the odd 3 x 3 map the four level-viewports do not cover the map: the
point (2, 2) lies in none of them (each column has truncated width 1). -/
theorem c5_csm_viewport_partition_counterexample :
    dirLight4.shadowFixedArea = false ∧ dirLight4.csmLevel = 4
    ∧ (0 : ℚ) ≤ 2 ∧ (2 : ℚ) < 3
    ∧ ¬ (getCsmMainLightViewport dirLight4 3 3 0 1).containsPt 2 2
    ∧ ¬ (getCsmMainLightViewport dirLight4 3 3 1 1).containsPt 2 2
    ∧ ¬ (getCsmMainLightViewport dirLight4 3 3 2 1).containsPt 2 2
    ∧ ¬ (getCsmMainLightViewport dirLight4 3 3 3 1).containsPt 2 2 := by
  refine ⟨rfl, rfl, by norm_num, by norm_num, ?_, ?_, ?_, ?_⟩ <;>
  · unfold getCsmMainLightViewport jsTrunc dirLight4 ViewportQ.containsPt
    norm_num

theorem setupCameraStep_foldl_filter (ppl : PplData) (configs : PipelineConfigs)
    (fw : FrameworkEnv) (cameras : List Camera) (acc : List Pass) :
    cameras.foldl (setupCameraStep ppl configs fw) acc
      = (cameras.filter cameraValid).foldl (setupCameraStep ppl configs fw) acc := by
  induction cameras generalizing acc with
  | nil => rfl
  | cons c cs ih =>
      rcases hsc : c.scene with _ | sc <;> rcases hwc : c.window with _ | wc <;>
        simp [List.filter_cons, cameraValid, hsc, hwc, List.foldl_cons,
          setupCameraStep, ih]

/-- C9: while the shared post-process materials are not all loaded, `setup`
composes no passes and leaves `_initialized` false (the attempt repeats on
every later call); as soon as all four effect assets are loaded the flag
becomes true and stays true; and in a composing frame, cameras whose scene
or window is null contribute no passes (the trace equals that of the
valid-camera sublist). -/
theorem c9_material_gate (cameras : List Camera) (ppl : PplData)
    (configs : PipelineConfigs) (fw : FrameworkEnv) (env : MaterialsEnv) :
    (env.allLoaded = false →
        (setup cameras ppl configs fw false env).1 = []
        ∧ (setup cameras ppl configs fw false env).2 = false)
    ∧ (env.allLoaded = true → (setup cameras ppl configs fw false env).2 = true)
    ∧ (∀ initialized : Bool, initialized = true →
        (setup cameras ppl configs fw initialized env).2 = true)
    ∧ (∀ initialized : Bool,
        (setup cameras ppl configs fw initialized env).1
          = (setup (cameras.filter cameraValid) ppl configs fw initialized env).1) := by
  refine ⟨?_, ?_, ?_, ?_⟩
  · intro h
    simp [setup, initMaterials, h]
  · intro h
    simp [setup, initMaterials, h]
  · intro initialized h
    subst h
    simp [setup, initMaterials]
  · intro initialized
    unfold setup
    rcases initialized with _ | _ <;> rcases hl : env.allLoaded with _ | _ <;>
      simp [initMaterials, hl, setupCameraStep_foldl_filter]

/-- Material-loading state with nothing loaded. -/
def envNone : MaterialsEnv :=
  { tonemapLoaded := false, dofLoaded := false, bloomLoaded := false,
    fxaaLoaded := false }

/-- Material-loading state with all four effect assets loaded. -/
def envAll : MaterialsEnv :=
  { tonemapLoaded := true, dofLoaded := true, bloomLoaded := true,
    fxaaLoaded := true }

/-- C9 witness: with no materials loaded the frame is skipped and the flag
stays false; with all loaded the flag becomes true; and a camera with a null
scene contributes no passes. -/
theorem c9_material_gate_witness :
    envNone.allLoaded = false
    ∧ (setup [cameraGameNoSettings] pplDefault configsFloat fwNone false envNone).1 = []
    ∧ (setup [cameraGameNoSettings] pplDefault configsFloat fwNone false envNone).2 = false
    ∧ (setup [cameraGameNoSettings] pplDefault configsFloat fwNone false envAll).2 = true
    ∧ (setup [cameraGameNoSettings] pplDefault configsFloat fwNone true envAll).1
        = (setup ([cameraGameNoSettings].filter cameraValid) pplDefault configsFloat
            fwNone true envAll).1 := by
  have h := c9_material_gate [cameraGameNoSettings] pplDefault configsFloat fwNone envNone
  have h2 := c9_material_gate [cameraGameNoSettings] pplDefault configsFloat fwNone envAll
  exact ⟨by decide, (h.1 (by decide)).1, (h.1 (by decide)).2, h2.2.1 (by decide),
    h2.2.2.2 true⟩

theorem buildForwardMainLightPass_passName (cc : CameraConfigs) (p : Pass)
    (id : Nat) (camera : Camera) (cn dn : String)
    (ml : Option DirectionalLight) (vp : ViewportQ) (c : ColorQ) :
    (buildForwardMainLightPass cc p id camera cn dn ml vp c).passName = p.passName := by
  unfold buildForwardMainLightPass
  by_cases h1 : forwardNeedClearColor camera <;>
    by_cases h2 : camera.clearFlag &&& clearFlagDepthStencil ≠ 0 <;>
    by_cases h3 : cc.enableShadowMap <;>
    simp [h1, h2, h3]

theorem buildForwardMainLightPass_layout (cc : CameraConfigs) (p : Pass)
    (id : Nat) (camera : Camera) (cn dn : String)
    (ml : Option DirectionalLight) (vp : ViewportQ) (c : ColorQ) :
    (buildForwardMainLightPass cc p id camera cn dn ml vp c).layout = p.layout := by
  unfold buildForwardMainLightPass
  by_cases h1 : forwardNeedClearColor camera <;>
    by_cases h2 : camera.clearFlag &&& clearFlagDepthStencil ≠ 0 <;>
    by_cases h3 : cc.enableShadowMap <;>
    simp [h1, h2, h3]

theorem buildForwardMainLightPass_width (cc : CameraConfigs) (p : Pass)
    (id : Nat) (camera : Camera) (cn dn : String)
    (ml : Option DirectionalLight) (vp : ViewportQ) (c : ColorQ) :
    (buildForwardMainLightPass cc p id camera cn dn ml vp c).width = p.width := by
  unfold buildForwardMainLightPass
  by_cases h1 : forwardNeedClearColor camera <;>
    by_cases h2 : camera.clearFlag &&& clearFlagDepthStencil ≠ 0 <;>
    by_cases h3 : cc.enableShadowMap <;>
    simp [h1, h2, h3, Pass.setViewportP, Pass.addRenderTarget, Pass.addDepthStencil,
      Pass.addTexture, Pass.addQueue]

theorem buildForwardMainLightPass_height (cc : CameraConfigs) (p : Pass)
    (id : Nat) (camera : Camera) (cn dn : String)
    (ml : Option DirectionalLight) (vp : ViewportQ) (c : ColorQ) :
    (buildForwardMainLightPass cc p id camera cn dn ml vp c).height = p.height := by
  unfold buildForwardMainLightPass
  by_cases h1 : forwardNeedClearColor camera <;>
    by_cases h2 : camera.clearFlag &&& clearFlagDepthStencil ≠ 0 <;>
    by_cases h3 : cc.enableShadowMap <;>
    simp [h1, h2, h3, Pass.setViewportP, Pass.addRenderTarget, Pass.addDepthStencil,
      Pass.addTexture, Pass.addQueue]

theorem buildForwardMainLightPass_rtNames (cc : CameraConfigs) (p : Pass)
    (id : Nat) (camera : Camera) (cn dn : String)
    (ml : Option DirectionalLight) (vp : ViewportQ) (c : ColorQ) :
    (buildForwardMainLightPass cc p id camera cn dn ml vp c).renderTargets.map
        RenderTargetRec.rtName
      = p.renderTargets.map RenderTargetRec.rtName ++ [cn] := by
  unfold buildForwardMainLightPass
  by_cases h1 : forwardNeedClearColor camera <;>
    by_cases h2 : camera.clearFlag &&& clearFlagDepthStencil ≠ 0 <;>
    by_cases h3 : cc.enableShadowMap <;>
    simp [h1, h2, h3, Pass.setViewportP, Pass.addRenderTarget, Pass.addDepthStencil,
      Pass.addTexture, Pass.addQueue]

theorem buildForwardMainLightPass_dsNames (cc : CameraConfigs) (p : Pass)
    (id : Nat) (camera : Camera) (cn dn : String)
    (ml : Option DirectionalLight) (vp : ViewportQ) (c : ColorQ) :
    (buildForwardMainLightPass cc p id camera cn dn ml vp c).depthStencils.map
        DepthStencilRec.dsName
      = p.depthStencils.map DepthStencilRec.dsName ++ [dn] := by
  unfold buildForwardMainLightPass
  by_cases h1 : forwardNeedClearColor camera <;>
    by_cases h2 : camera.clearFlag &&& clearFlagDepthStencil ≠ 0 <;>
    by_cases h3 : cc.enableShadowMap <;>
    simp [h1, h2, h3, Pass.setViewportP, Pass.addRenderTarget, Pass.addDepthStencil,
      Pass.addTexture, Pass.addQueue]

theorem buildForwardMainLightPass_queues (cc : CameraConfigs) (p : Pass)
    (id : Nat) (camera : Camera) (cn dn : String)
    (ml : Option DirectionalLight) (vp : ViewportQ) (c : ColorQ) :
    (buildForwardMainLightPass cc p id camera cn dn ml vp c).queues
      = p.queues ++ [mkQueue QueueHint.NONE "" ""
          [QueueItem.scene (sceneFlagOpaque ||| sceneFlagMask) (ml.map LightParam.dir)]] := by
  unfold buildForwardMainLightPass
  by_cases h1 : forwardNeedClearColor camera <;>
    by_cases h2 : camera.clearFlag &&& clearFlagDepthStencil ≠ 0 <;>
    by_cases h3 : cc.enableShadowMap <;>
    simp [h1, h2, h3, Pass.setViewportP, Pass.addRenderTarget, Pass.addDepthStencil,
      Pass.addTexture, Pass.addQueue]

theorem addUIQueue_of_not_profiler (cc : CameraConfigs)
    (h : cc.enableProfiler = false) (p : Pass) :
    addUIQueue cc p
      = p.addQueue (mkQueue QueueHint.BLEND "" "" [QueueItem.scene sceneFlagUI none]) := by
  simp [addUIQueue, h]

@[simp]
theorem Pass.addQueue_depthStencils (p : Pass) (q : QueueRec) :
    (p.addQueue q).depthStencils = p.depthStencils := rfl

/-- C3 (amended): a desktop camera resolving to LDR (no float output), no
shading scale and no post-process, with a main light whose shadows are
disabled and zero additive lights, composes exactly ONE pass in total: the
forward pass writing directly to the window color and depth-stencil targets,
which also carries the UI queue as its last draw queue (the UI overlay is a
queue on the forward pass, not a separate pass); there are no shadow and no
post-process passes. -/
theorem c3_minimal_forward (ppl : PplData) (configs : PipelineConfigs)
    (fw : FrameworkEnv) (camera : Camera) (win : WindowRec) (scene : RenderScene)
    (ml : DirectionalLight) (cc : CameraConfigs)
    (hcc : cc = setupCameraConfigs camera win configs fw)
    (hfo : configs.useFloatOutput = false)
    (hscene : camera.scene = some scene)
    (hml : scene.mainLight = some ml)
    (hmlsh : ml.shadowEnabled = false)
    (hset : camera.pipelineSettings = none)
    (husage : camera.cameraUsage = CameraUsage.GAME)
    (hdbg : fw.debug = false)
    (hsl1 : scene.spotLights = []) (hsl2 : scene.sphereLights = [])
    (hsl3 : scene.pointLights = []) (hsl4 : scene.rangedDirLights = []) :
    cc.enableShadowMap = false
    ∧ cc.enablePostProcess = false
    ∧ cc.enableShadingScale = false
    ∧ ∃ fp : Pass,
        buildForwardPipeline ppl configs cc emptyFL camera win scene = [fp]
        ∧ fp.passName = "ForwardPass"
        ∧ fp.layout = "default"
        ∧ fp.width = maxFloor1 win.width
        ∧ fp.height = maxFloor1 win.height
        ∧ fp.renderTargets.map RenderTargetRec.rtName = [win.colorName]
        ∧ fp.depthStencils.map DepthStencilRec.dsName = [win.depthStencilName]
        ∧ fp.queues.getLast?
            = some (mkQueue QueueHint.BLEND "" ""
                [QueueItem.scene sceneFlagUI none]) := by
  have hesm : (setupCameraConfigs camera win configs fw).enableShadowMap = false := by
    simp [setupCameraConfigs, hscene, hml, hmlsh]
  have hepp : (setupCameraConfigs camera win configs fw).enablePostProcess = false := by
    simp [setupCameraConfigs, hfo, husage]
  have hess : (setupCameraConfigs camera win configs fw).enableShadingScale = false := by
    simp [setupCameraConfigs, husage, hset]
  have hepr : (setupCameraConfigs camera win configs fw).enableProfiler = false := by
    simp [setupCameraConfigs, hdbg]
  have hfl : ForwardLighting.cullLights emptyFL scene camera.frustum none
      = { lights := [], shadowEnabledSpotLights := [] } := by
    simp [ForwardLighting.cullLights, hsl1, hsl2, hsl3, hsl4, emptyFL]
  subst hcc
  refine ⟨hesm, hepp, hess, ?_⟩
  unfold buildForwardPipeline
  rw [hfl]
  simp only [hesm, hepp, hess, hfo, Bool.false_eq_true, if_false,
    addForwardRadiancePasses, ForwardLighting.addLightPasses,
    ForwardLighting.addLightQueuesFn, List.foldl_nil]
  rw [addUIQueue_of_not_profiler _ hepr]
  refine ⟨_, rfl, ?_, ?_, ?_, ?_, ?_, ?_, ?_⟩
  · simp [Pass.addQueue_passName, buildForwardMainLightPass_passName]
  · simp [Pass.addQueue_layout, buildForwardMainLightPass_layout, Pass.withName]
  · simp [Pass.addQueue_width, buildForwardMainLightPass_width, Pass.withName, Pass.start]
  · simp [Pass.addQueue_height, buildForwardMainLightPass_height, Pass.withName, Pass.start]
  · simp [Pass.addQueue_renderTargets, buildForwardMainLightPass_rtNames,
      Pass.withName, Pass.start]
  · simp [Pass.addQueue_depthStencils, buildForwardMainLightPass_dsNames,
      Pass.withName, Pass.start]
  · simp [Pass.addQueue_queues, buildForwardMainLightPass_queues, Pass.withName,
      Pass.start]

/-- A main directional light with shadows disabled. -/
def mlNoShadow : DirectionalLight :=
  { shadowEnabled := false, shadowFixedArea := false, csmLevel := 1 }

/-- Scene with a shadowless main light and zero additive lights. -/
def sceneC3 : RenderScene :=
  { mainLight := some mlNoShadow, spotLights := [], sphereLights := [],
    pointLights := [], rangedDirLights := [] }

/-- Desktop capability snapshot with float output unsupported (LDR). -/
def configsLDR : PipelineConfigs :=
  { isMobile := false, isHDR := false, useFloatOutput := false,
    toneMappingType := 0, shadowMapSize := { x := 512, y := 512 },
    screenSpaceSignY := 1, supportDepthSample := false,
    mobileMaxSpotLightShadowMaps := 1, g_platform := { x := 0, y := 0, z := 0, w := 0 } }

/-- Game camera over `sceneC3` with no settings object. -/
def cameraC3 : Camera :=
  { scene := some sceneC3, window := some winGame, cameraUsage := CameraUsage.GAME,
    usePostProcess := false, pipelineSettings := none, clearFlag := 7,
    clearColor := { x := 0, y := 0, z := 0, w := 1 }, clearDepth := 1,
    clearStencil := 0, viewport := { x := 0, y := 0, z := 1, w := 1 },
    frustum := frustumTrue, position := { x := 0, y := 0, z := 0 } }

/-- C3 witness: the single-pass composition at a concrete LDR camera. -/
theorem c3_minimal_forward_witness :
    configsLDR.useFloatOutput = false
    ∧ mlNoShadow.shadowEnabled = false
    ∧ ∃ fp : Pass,
        buildForwardPipeline pplDefault configsLDR
            (setupCameraConfigs cameraC3 winGame configsLDR fwNone) emptyFL cameraC3
            winGame sceneC3 = [fp]
        ∧ fp.passName = "ForwardPass"
        ∧ fp.layout = "default"
        ∧ fp.width = maxFloor1 winGame.width
        ∧ fp.height = maxFloor1 winGame.height
        ∧ fp.renderTargets.map RenderTargetRec.rtName = [winGame.colorName]
        ∧ fp.depthStencils.map DepthStencilRec.dsName = [winGame.depthStencilName]
        ∧ fp.queues.getLast?
            = some (mkQueue QueueHint.BLEND "" ""
                [QueueItem.scene sceneFlagUI none]) :=
  ⟨rfl, rfl,
    (c3_minimal_forward pplDefault configsLDR fwNone cameraC3 winGame sceneC3
      mlNoShadow _ rfl rfl rfl rfl rfl rfl rfl rfl rfl rfl rfl rfl).2.2.2⟩

/-- C3 counterexample: the claim as stated counts one forward pass PLUS one
UI pass, i.e. two passes; the composition emits exactly one pass (the UI
overlay is a draw queue on the forward pass, not a pass of its own). -/
theorem c3_minimal_forward_counterexample :
    (buildForwardPipeline pplDefault configsLDR
        (setupCameraConfigs cameraC3 winGame configsLDR fwNone) emptyFL cameraC3
        winGame sceneC3).length = 1
    ∧ ¬ ((buildForwardPipeline pplDefault configsLDR
        (setupCameraConfigs cameraC3 winGame configsLDR fwNone) emptyFL cameraC3
        winGame sceneC3).length = 2) := by
  constructor <;> decide

theorem foldl_layout_invariant {α : Type} (f : Pass → α → Pass)
    (hf : ∀ p a, (f p a).layout = p.layout) (xs : List α) (p : Pass) :
    (xs.foldl f p).layout = p.layout := by
  induction xs generalizing p with
  | nil => rfl
  | cons x xs ih => rw [List.foldl_cons, ih, hf]

theorem foldl_passName_invariant {α : Type} (f : Pass → α → Pass)
    (hf : ∀ p a, (f p a).passName = p.passName) (xs : List α) (p : Pass) :
    (xs.foldl f p).passName = p.passName := by
  induction xs generalizing p with
  | nil => rfl
  | cons x xs ih => rw [List.foldl_cons, ih, hf]

theorem addCascadedShadowMapPass_layout (ppl : PplData) (configs : PipelineConfigs)
    (id : Nat) (light : DirectionalLight) :
    (addCascadedShadowMapPass ppl configs id light).layout = "default" := by
  unfold addCascadedShadowMapPass
  rw [foldl_layout_invariant _ (fun p a => Pass.addQueue_layout p _)]
  rfl

theorem addCascadedShadowMapPass_passName (ppl : PplData) (configs : PipelineConfigs)
    (id : Nat) (light : DirectionalLight) :
    (addCascadedShadowMapPass ppl configs id light).passName = "CSM" := by
  unfold addCascadedShadowMapPass
  rw [foldl_passName_invariant _ (fun p a => Pass.addQueue_passName p _)]
  rfl

theorem addLightQueuesFn_layout_eq (self : ForwardLighting) (pass : Pass) :
    (self.addLightQueuesFn pass).layout = pass.layout :=
  addLightQueuesFn_layout self pass

/-- Layout invariant through the desktop spot-light fold: every emitted pass
and the final open pass keep layout `default` when the seeds do. -/
theorem desktopLightStep_foldl_layout (cn dn : String) (id : Nat) (w h : ℚ)
    (sz : Vec2Q) (xs : List SpotLight) (acc : List Pass × Pass)
    (h1 : ∀ p ∈ acc.1, p.layout = "default") (h2 : acc.2.layout = "default") :
    (∀ p ∈ (xs.foldl (desktopLightStep cn dn id w h sz) acc).1, p.layout = "default")
    ∧ (xs.foldl (desktopLightStep cn dn id w h sz) acc).2.layout = "default" := by
  induction xs generalizing acc with
  | nil => exact ⟨h1, h2⟩
  | cons x xs ih =>
      rw [List.foldl_cons]
      apply ih
      · intro p hp
        rcases List.mem_append.mp hp with hp | hp
        · exact h1 p hp
        · rcases hp with _ | ⟨_, hq⟩
          · exact h2
          · rcases hq with _ | ⟨_, hq⟩
            · rfl
            · cases hq
      · rfl

/-- All passes produced by `_addForwardRadiancePasses` have layout
`default`, and exactly one of them is named `ForwardPass`. -/
theorem addForwardRadiancePasses_shape (cc : CameraConfigs) (fl : ForwardLighting)
    (ppl : PplData) (id : Nat) (camera : Camera) (w h : ℚ)
    (ml : Option DirectionalLight) (cn dn : String) :
    (∀ p ∈ (addForwardRadiancePasses cc fl ppl id camera w h ml cn dn).1,
        p.layout = "default")
    ∧ (addForwardRadiancePasses cc fl ppl id camera w h ml cn dn).2.layout = "default"
    ∧ countName "ForwardPass"
        ((addForwardRadiancePasses cc fl ppl id camera w h ml cn dn).1
          ++ [(addForwardRadiancePasses cc fl ppl id camera w h ml cn dn).2]) = 1 := by
  simp only [addForwardRadiancePasses, ForwardLighting.addLightPasses]
  have hbase : (fl.addLightQueuesFn
      (buildForwardMainLightPass cc
        ((Pass.start w h "default").withName "ForwardPass") id camera cn dn ml
        (cameraScaledViewport camera w h) camera.clearColor)).layout = "default" := by
    rw [addLightQueuesFn_layout, buildForwardMainLightPass_layout]
    rfl
  have hbn : (fl.addLightQueuesFn
      (buildForwardMainLightPass cc
        ((Pass.start w h "default").withName "ForwardPass") id camera cn dn ml
        (cameraScaledViewport camera w h) camera.clearColor)).passName = "ForwardPass" := by
    rw [addLightQueuesFn_passName, buildForwardMainLightPass_passName]
    rfl
  obtain ⟨hl1, hl2⟩ := desktopLightStep_foldl_layout cn dn id w h ppl.shadowsSize
    fl.shadowEnabledSpotLights
    ([], fl.addLightQueuesFn
      (buildForwardMainLightPass cc
        ((Pass.start w h "default").withName "ForwardPass") id camera cn dn ml
        (cameraScaledViewport camera w h) camera.clearColor))
    (by intro p hp; cases hp) hbase
  refine ⟨hl1, by rw [Pass.addQueue_layout]; exact hl2, ?_⟩
  have hcount := desktopLightStep_foldl_countName cn dn id w h ppl.shadowsSize
    fl.shadowEnabledSpotLights
    ([], fl.addLightQueuesFn
      (buildForwardMainLightPass cc
        ((Pass.start w h "default").withName "ForwardPass") id camera cn dn ml
        (cameraScaledViewport camera w h) camera.clearColor))
    "ForwardPass"
  simp [countName_append, countName_cons, countName_nil, hbn,
    Pass.addQueue_passName] at hcount ⊢
  omega

/-- The single render-target record of the bloom combine pass: the radiance
target bound with LOAD (no clear). -/
def bloomCombineTarget (id : Nat) : RenderTargetRec :=
  { rtName := "Radiance" ++ toString id, loadOp := LoadOp.LOAD,
    storeOp := some StoreOp.STORE, clearColor := none }

/-- C4 (amended): with HDR float output, post-process enabled, bloom enabled
at 3 iterations, FXAA and depth-of-field disabled, the desktop composition
emits, in order: the forward pass group (all `default`-layout passes with
exactly one named `ForwardPass`), then exactly 8 bloom passes (1 prefilter
at half working resolution, 3 downsamples each halving the previous level
clamped to at least 1, 3 upsamples mirroring those levels in reverse, and 1
combine at full working resolution that LOADs the radiance target without a
clear), then exactly 1 tonemap-to-screen pass at native resolution, which
also carries the UI queue as its last draw queue (the UI overlay is a queue
on the tonemap pass, not a separate pass). -/
theorem c4_bloom_chain (ppl : PplData) (configs : PipelineConfigs)
    (cc : CameraConfigs) (fl0 : ForwardLighting) (camera : Camera)
    (win : WindowRec) (scene : RenderScene) (st : PipelineSettings)
    (hfo : configs.useFloatOutput = true)
    (hpp : cc.enablePostProcess = true)
    (hset : cc.pipelineSettings = some st)
    (hbloom : st.bloom.enabled = true)
    (hiter : st.bloom.iterations = 3)
    (hfxaa : st.fxaa.enabled = false)
    (hdof : st.depthOfField.enabled = false)
    (hprof : cc.enableProfiler = false) :
    ∃ fwd p0 p1 p2 p3 p4 p5 p6 p7 p8,
      buildForwardPipeline ppl configs cc fl0 camera win scene
          = fwd ++ [p0, p1, p2, p3, p4, p5, p6, p7, p8]
      ∧ (∀ p ∈ fwd, p.layout = "default")
      ∧ countName "ForwardPass" fwd = 1
      ∧ p0.layout = "bloom1-prefilter"
      ∧ p0.width = maxFloor1 (scaledWindowSize cc (maxFloor1 win.width) / 2)
      ∧ p0.height = maxFloor1 (scaledWindowSize cc (maxFloor1 win.height) / 2)
      ∧ p1.layout = "bloom1-downsample" ∧ p1.width = maxFloor1 (p0.width / 2)
        ∧ p1.height = maxFloor1 (p0.height / 2)
      ∧ p2.layout = "bloom1-downsample" ∧ p2.width = maxFloor1 (p1.width / 2)
        ∧ p2.height = maxFloor1 (p1.height / 2)
      ∧ p3.layout = "bloom1-downsample" ∧ p3.width = maxFloor1 (p2.width / 2)
        ∧ p3.height = maxFloor1 (p2.height / 2)
      ∧ p4.layout = "bloom1-upsample" ∧ p4.width = p2.width ∧ p4.height = p2.height
      ∧ p5.layout = "bloom1-upsample" ∧ p5.width = p1.width ∧ p5.height = p1.height
      ∧ p6.layout = "bloom1-upsample" ∧ p6.width = p0.width ∧ p6.height = p0.height
      ∧ p7.layout = "bloom1-combine"
      ∧ p7.width = scaledWindowSize cc (maxFloor1 win.width)
      ∧ p7.height = scaledWindowSize cc (maxFloor1 win.height)
      ∧ p7.renderTargets = [bloomCombineTarget win.renderWindowId]
      ∧ p8.layout = "post-final-tonemap"
      ∧ p8.width = maxFloor1 win.width ∧ p8.height = maxFloor1 win.height
      ∧ p8.renderTargets.map RenderTargetRec.rtName = [win.colorName]
      ∧ p8.queues.getLast?
          = some (mkQueue QueueHint.BLEND "" "" [QueueItem.scene sceneFlagUI none]) := by
  unfold buildForwardPipeline
  simp only [hfo, hpp, hset, hdof, hbloom, hfxaa, Bool.and_false,
    Bool.false_eq_true, if_false, if_true]
  set W := scaledWindowSize cc (maxFloor1 win.width) with hW
  set H := scaledWindowSize cc (maxFloor1 win.height) with hH
  set rad := "Radiance" ++ toString win.renderWindowId with hrad
  set r := addForwardRadiancePasses cc (fl0.cullLights scene camera.frustum none)
    ppl win.renderWindowId camera W H scene.mainLight rad win.depthStencilName with hr
  have hk : addKawaseDualFilterBloomPasses configs st win.renderWindowId W H rad
      = [bloomPrefilterPass configs st win.renderWindowId W H rad,
         bloomDownPass configs win.renderWindowId W H 1,
         bloomDownPass configs win.renderWindowId W H 2,
         bloomDownPass configs win.renderWindowId W H 3,
         bloomUpPass configs win.renderWindowId W H 2,
         bloomUpPass configs win.renderWindowId W H 1,
         bloomUpPass configs win.renderWindowId W H 0,
         bloomCombinePass configs st win.renderWindowId W H rad] := by
    simp only [addKawaseDualFilterBloomPasses, hiter]
    rfl
  rw [hk, addUIQueue_of_not_profiler _ hprof]
  obtain ⟨hfw1, hfw2, hfw3⟩ := addForwardRadiancePasses_shape cc
    (fl0.cullLights scene camera.frustum none) ppl win.renderWindowId camera W H
    scene.mainLight rad win.depthStencilName
  rw [← hr] at hfw1 hfw2 hfw3
  set csm := (if cc.enableShadowMap = true then
      match scene.mainLight with
      | some ml => [addCascadedShadowMapPass ppl configs win.renderWindowId ml]
      | none => []
    else ([] : List Pass)) with hcsm
  refine ⟨csm ++ (r.1 ++ [r.2]),
    bloomPrefilterPass configs st win.renderWindowId W H rad,
    bloomDownPass configs win.renderWindowId W H 1,
    bloomDownPass configs win.renderWindowId W H 2,
    bloomDownPass configs win.renderWindowId W H 3,
    bloomUpPass configs win.renderWindowId W H 2,
    bloomUpPass configs win.renderWindowId W H 1,
    bloomUpPass configs win.renderWindowId W H 0,
    bloomCombinePass configs st win.renderWindowId W H rad,
    (addCopyAndTonemapPass configs (maxFloor1 win.width) (maxFloor1 win.height)
      rad win.colorName).addQueue
      (mkQueue QueueHint.BLEND "" "" [QueueItem.scene sceneFlagUI none]),
    ?_, ?_, ?_, ?_, ?_, ?_, ?_, ?_, ?_, ?_, ?_, ?_, ?_, ?_, ?_, ?_, ?_, ?_,
    ?_, ?_, ?_, ?_, ?_, ?_, ?_, ?_, ?_, ?_, ?_, ?_, ?_, ?_, ?_⟩
  · simp [List.append_assoc]
  · intro p hp
    rcases List.mem_append.mp hp with hp | hp
    · rw [hcsm] at hp
      by_cases hesm : cc.enableShadowMap = true
      · rw [if_pos hesm] at hp
        rcases hml2 : scene.mainLight with _ | ml2 <;> rw [hml2] at hp
        · cases hp
        · rcases hp with _ | ⟨_, h⟩
          · exact addCascadedShadowMapPass_layout ppl configs win.renderWindowId ml2
          · cases h
      · rw [if_neg hesm] at hp
        cases hp
    · rcases List.mem_append.mp hp with hp | hp
      · exact hfw1 p hp
      · rcases hp with _ | ⟨_, h⟩
        · exact hfw2
        · cases h
  · rw [countName_append, hfw3]
    have hc0 : countName "ForwardPass" csm = 0 := by
      rw [hcsm]
      by_cases hesm : cc.enableShadowMap = true
      · rw [if_pos hesm]
        rcases scene.mainLight with _ | ml2
        · rfl
        · rw [countName_cons, countName_nil, addCascadedShadowMapPass_passName]
          simp
      · rw [if_neg hesm]
        rfl
    rw [hc0]
  all_goals rfl

/-- Depth-of-field disabled. -/
def dofOff : DepthOfFieldSettings :=
  { enabled := false, focusDistance := 0, focusRange := 0, bokehRadius := 1 }

/-- Bloom enabled with 3 iterations. -/
def bloomIter3 : BloomSettings :=
  { enabled := true, iterations := 3, threshold := 1, enableAlphaMask := false }

/-- Settings with bloom enabled at 3 iterations, FXAA and DoF disabled. -/
def stBloom3 : PipelineSettings :=
  { enableShadingScale := false, shadingScale := 1, depthOfField := dofOff,
    bloom := bloomIter3, fxaa := { enabled := false } }

/-- Camera policy with post-process on and `stBloom3` resolved. -/
def ccBloom : CameraConfigs :=
  { enableShadowMap := false, enablePostProcess := true, enableProfiler := false,
    enableShadingScale := false, shadingScale := 1,
    pipelineSettings := some stBloom3 }

/-- C4 witness: the bloom-chain theorem applied at a concrete HDR camera. -/
theorem c4_bloom_chain_witness :
    configsFloat.useFloatOutput = true
    ∧ ccBloom.enablePostProcess = true
    ∧ ccBloom.pipelineSettings = some stBloom3
    ∧ stBloom3.bloom.enabled = true
    ∧ stBloom3.bloom.iterations = 3
    ∧ stBloom3.fxaa.enabled = false
    ∧ stBloom3.depthOfField.enabled = false
    ∧ ∃ fwd p0 p1 p2 p3 p4 p5 p6 p7 p8,
        buildForwardPipeline pplDefault configsFloat ccBloom emptyFL cameraC3
            winGame sceneC3
            = fwd ++ [p0, p1, p2, p3, p4, p5, p6, p7, p8]
        ∧ (∀ p ∈ fwd, p.layout = "default")
        ∧ countName "ForwardPass" fwd = 1
        ∧ p0.layout = "bloom1-prefilter"
        ∧ p0.width = maxFloor1 (scaledWindowSize ccBloom (maxFloor1 winGame.width) / 2)
        ∧ p0.height = maxFloor1 (scaledWindowSize ccBloom (maxFloor1 winGame.height) / 2)
        ∧ p1.layout = "bloom1-downsample" ∧ p1.width = maxFloor1 (p0.width / 2)
          ∧ p1.height = maxFloor1 (p0.height / 2)
        ∧ p2.layout = "bloom1-downsample" ∧ p2.width = maxFloor1 (p1.width / 2)
          ∧ p2.height = maxFloor1 (p1.height / 2)
        ∧ p3.layout = "bloom1-downsample" ∧ p3.width = maxFloor1 (p2.width / 2)
          ∧ p3.height = maxFloor1 (p2.height / 2)
        ∧ p4.layout = "bloom1-upsample" ∧ p4.width = p2.width ∧ p4.height = p2.height
        ∧ p5.layout = "bloom1-upsample" ∧ p5.width = p1.width ∧ p5.height = p1.height
        ∧ p6.layout = "bloom1-upsample" ∧ p6.width = p0.width ∧ p6.height = p0.height
        ∧ p7.layout = "bloom1-combine"
        ∧ p7.width = scaledWindowSize ccBloom (maxFloor1 winGame.width)
        ∧ p7.height = scaledWindowSize ccBloom (maxFloor1 winGame.height)
        ∧ p7.renderTargets = [bloomCombineTarget winGame.renderWindowId]
        ∧ p8.layout = "post-final-tonemap"
        ∧ p8.width = maxFloor1 winGame.width ∧ p8.height = maxFloor1 winGame.height
        ∧ p8.renderTargets.map RenderTargetRec.rtName = [winGame.colorName]
        ∧ p8.queues.getLast?
            = some (mkQueue QueueHint.BLEND "" "" [QueueItem.scene sceneFlagUI none]) :=
  ⟨rfl, rfl, rfl, rfl, rfl, rfl, rfl,
    c4_bloom_chain pplDefault configsFloat ccBloom emptyFL cameraC3 winGame sceneC3
      stBloom3 rfl rfl rfl rfl rfl rfl rfl rfl⟩

/-- C4 counterexample: the claim as stated counts the forward pass(es), 8
bloom passes, 1 tonemap pass AND 1 separate UI pass; at this concrete input
the forward group is a single pass, so the claim predicts 11 emitted passes,
but the composition emits 10 (the UI overlay is a queue on the tonemap
pass). -/
theorem c4_bloom_chain_counterexample :
    (buildForwardPipeline pplDefault configsFloat ccBloom emptyFL cameraC3
        winGame sceneC3).length = 10
    ∧ ¬ ((buildForwardPipeline pplDefault configsFloat ccBloom emptyFL cameraC3
        winGame sceneC3).length = 11) := by
  constructor <;> decide
